import Mathlib

/-!
# Hot-reloadable double buffer (`src/double_buffer/double_buffer.h`)

A shallow embedding of `SwitchMonitor` and of `DoubleBuffer<Buffer, Loader>`.

* A `unique_ptr<Buffer>` is an `Option Buffer` (`none` is the null pointer), the
  two-cell array `double_buffer_` is a pair, and the `uint32_t` index is a `Nat`
  with arithmetic modulo `2 ^ 32`.
* Everything the code asks of the outside world (the answers of `access`, `open`
  and `stat` on the update file, whether the `ofstream` on the done file opens,
  what `Loader::Load` returns, whether the `std::thread` can be constructed, whether
  the destructor has stored `stop_monitor_ = true`) is an explicit input.
* `MonitorUpdate` is a deterministic step function over a program counter with one
  value per statement of the loop, so that the states between two statements are
  states of the model.  Each step appends what it did to a history.

The header spells a few identifiers in more than one way (`SwtichDone` is called as
`SwitchDone(true)` and as `SwitchMonitor(false)`, `double_buffer_` as `double_buffer`,
`old_buf_life_time_` as `old_buf_file_time_`, `Load` as `load`, `last_modify_time_` as
`last_modify_time`, `buf->cur_idx_` as `buf.cur_idx_`).  Every such spelling is read as
the one declared member it can denote.
-/

namespace framework.double_buffer

/-! ## Constants -/

def BUF_SIZE : Nat := 2

def DEFAULT_MONITOR_INTERVAL : Nat := 3

def DEFAULT_OLD_BUF_LIFE_TIME : Nat := 30

/-- Width of `uint32_t`. -/
def UINT32_MOD : Nat := 2 ^ 32

/-- Subtraction of `uint32_t` values (`a - b` wraps modulo `2 ^ 32`). -/
def sub32 (a b : Nat) : Nat := (a % UINT32_MOD + UINT32_MOD - b % UINT32_MOD) % UINT32_MOD

/-! ## SwitchMonitor -/

/-- What the file system answers about `update_file_` during one call of
`Attach` or `ShouldSwitchMonitor`. -/
structure FsView where
  /-- Whether `access(update_file_, F_OK) == 0`. -/
  access_ok : Bool
  /-- Whether `open(update_file_, O_RDWR | O_CREAT) != -1`. -/
  open_ok : Bool
  /-- Result of `stat(update_file_, &buf)`: `none` when it fails, else `buf.st_mtime`. -/
  stat : Option Int
  deriving DecidableEq, Repr

/-- The data members of `SwitchMonitor`. -/
structure SwitchMonitor where
  last_modify_time_ : Int
  update_file_ : String
  done_file_ : String
  deriving DecidableEq, Repr

/-- Constructor `SwitchMonitor() : last_modify_time_(0)`. -/
def SwitchMonitor.new : SwitchMonitor :=
  { last_modify_time_ := 0, update_file_ := "", done_file_ := "" }

/-- Private `Create()`: the file is there, or `open` with `O_CREAT` makes it. -/
def SwitchMonitor.Create (fs : FsView) : Bool :=
  if !fs.access_ok then fs.open_ok else true

/-- Private `Attach()`: create, stat, record the baseline. -/
def SwitchMonitor.Attach (self : SwitchMonitor) (fs : FsView) : Bool × SwitchMonitor :=
  if !SwitchMonitor.Create fs then (false, self)
  else
    match fs.stat with
    | none => (false, self)
    | some mtime => (true, { self with last_modify_time_ := mtime })

/-- The node `conf["switch_monitor"]`: each key is `none` when it is missing or does
not convert to a string (`as<std::string>()` throws). -/
structure MonitorConf where
  update_file : Option String
  done_file : Option String
  deriving DecidableEq, Repr

/-- `SwitchMonitor::Init`: read the two keys, then `Attach`.  Any exception is caught
and turned into `false`. -/
def SwitchMonitor.Init (self : SwitchMonitor) (conf : Option MonitorConf) (fs : FsView) :
    Bool × SwitchMonitor :=
  match conf with
  | none => (false, self)
  | some c =>
    match c.update_file with
    | none => (false, self)
    | some u =>
      match c.done_file with
      | none => (false, { self with update_file_ := u })
      | some d => SwitchMonitor.Attach { self with update_file_ := u, done_file_ := d } fs

/-- `SwitchMonitor::ShouldSwitchMonitor`. -/
def SwitchMonitor.ShouldSwitchMonitor (self : SwitchMonitor) (fs : FsView) :
    Bool × SwitchMonitor :=
  if !SwitchMonitor.Create fs then (false, self)
  else
    match fs.stat with
    | none => (false, self)
    | some mtime =>
      if mtime > self.last_modify_time_ then
        (true, { self with last_modify_time_ := mtime })
      else (false, self)

/-- `SwitchMonitor::SwtichDone` as a function on the content of the done file
(`none` when the file does not exist).  `is_open` is whether the `ofstream` opened;
opening truncates, `put` writes the one marker byte. -/
def SwitchMonitor.SwtichDone (flag : Bool) (is_open : Bool) (content : Option (List Char)) :
    Option (List Char) :=
  if is_open then some [if flag then '1' else '0'] else content

/-! ### The update file as seen between polls -/

/-- The update file of an external writer: it exists, can be stat-ed, and carries a
modification time. -/
structure UpdateFile where
  mtime : Int
  deriving DecidableEq, Repr

/-- An external bump of the modification time to `t`. -/
def UpdateFile.touch (f : UpdateFile) (t : Int) : UpdateFile := { f with mtime := t }

/-- Several successive bumps. -/
def UpdateFile.touches (f : UpdateFile) (ts : List Int) : UpdateFile :=
  ts.foldl UpdateFile.touch f

/-- What `access`, `open` and `stat` answer for an existing, stat-able file. -/
def UpdateFile.view (f : UpdateFile) : FsView :=
  { access_ok := true, open_ok := true, stat := some f.mtime }

/-- Successive calls of `ShouldSwitchMonitor`, one per view, returning the results in
order and the monitor after the last call. -/
def SwitchMonitor.polls (self : SwitchMonitor) : List FsView → List Bool × SwitchMonitor
  | [] => ([], self)
  | v :: vs =>
    let r := self.ShouldSwitchMonitor v
    let rest := SwitchMonitor.polls r.2 vs
    (r.1 :: rest.1, rest.2)

/-! ## DoubleBuffer -/

/-- The data members of `DoubleBuffer<Buffer, Loader>`.  `loader_` records whether the
`unique_ptr<Loader>` is non-null and `monitor_thread_` whether the thread pointer is. -/
structure DoubleBuffer (Buffer : Type) where
  switch_monitor_ : SwitchMonitor
  double_buffer_ : Option Buffer × Option Buffer
  loader_ : Bool
  monitor_thread_ : Bool
  cur_idx_ : Nat
  stop_monitor_ : Bool
  monitor_interval_ : Nat
  old_buf_life_time_ : Nat
  deriving DecidableEq, Repr

/-- Constructor `DoubleBuffer(LoaderPtr loader)`. -/
def DoubleBuffer.new (Buffer : Type) (loader : Bool) : DoubleBuffer Buffer :=
  { switch_monitor_ := SwitchMonitor.new
    double_buffer_ := (none, none)
    loader_ := loader
    monitor_thread_ := false
    cur_idx_ := 0
    stop_monitor_ := false
    monitor_interval_ := DEFAULT_MONITOR_INTERVAL
    old_buf_life_time_ := DEFAULT_OLD_BUF_LIFE_TIME }

/-- Read of `double_buffer_[i]`.  An index outside the array is undefined in the
source; it reads as `none` here and is shown never to occur. -/
def DoubleBuffer.slot {Buffer : Type} (self : DoubleBuffer Buffer) (i : Nat) : Option Buffer :=
  if i = 0 then self.double_buffer_.1 else if i = 1 then self.double_buffer_.2 else none

/-- Assignment `double_buffer_[i] = v` (the previous content of the cell is destroyed).
An index outside the array leaves both cells alone and is shown never to occur. -/
def DoubleBuffer.set_slot {Buffer : Type} (self : DoubleBuffer Buffer) (i : Nat)
    (v : Option Buffer) : DoubleBuffer Buffer :=
  if i = 0 then { self with double_buffer_ := (v, self.double_buffer_.2) }
  else if i = 1 then { self with double_buffer_ := (self.double_buffer_.1, v) }
  else self

/-- `get_buffer()`: `double_buffer_[cur_idx_]`. -/
def DoubleBuffer.get_buffer {Buffer : Type} (self : DoubleBuffer Buffer) : Option Buffer :=
  self.slot self.cur_idx_

/-- The configuration node given to `DoubleBuffer::Init`: a key is `none` when it is
missing; a number converts with `as<uint32_t>()` only when it fits. -/
structure Conf where
  monitor_interval : Option Nat
  old_buf_life_time : Option Nat
  switch_monitor : Option MonitorConf
  deriving DecidableEq, Repr

/-- Conversion `as<uint32_t>()` of a key: fails when the key is missing or out of range. -/
def as_uint32 (v : Option Nat) : Option Nat :=
  match v with
  | none => none
  | some n => if n < UINT32_MOD then some n else none

/-- What `DoubleBuffer::Init` leaves behind: its return value, the object, and how many
`std::thread` objects running `MonitorUpdate` it constructed. -/
structure InitResult (Buffer : Type) where
  ret : Bool
  self : DoubleBuffer Buffer
  threads_started : Nat
  deriving DecidableEq, Repr

/-- `DoubleBuffer::Init`.  `first_load` is what `loader_->Load()` returns (used only
when the loader is present), `fs` is what the file system answers to `Attach`, and
`thread_ok` is whether `new std::thread(MonitorUpdate, this)` succeeds: when it throws,
the exception is caught like every other one, `monitor_thread_` stays null and `Init`
returns false. -/
def DoubleBuffer.Init {Buffer : Type} (self : DoubleBuffer Buffer) (conf : Conf)
    (first_load : Option Buffer) (fs : FsView) (thread_ok : Bool) : InitResult Buffer :=
  if !self.loader_ then { ret := false, self := self, threads_started := 0 }
  else
    match first_load with
    | none => { ret := false, self := self, threads_started := 0 }
    | some buffer =>
      let s1 := self.set_slot self.cur_idx_ (some buffer)
      match as_uint32 conf.monitor_interval with
      | none => { ret := false, self := s1, threads_started := 0 }
      | some mi =>
        let s2 := { s1 with monitor_interval_ := mi }
        match as_uint32 conf.old_buf_life_time with
        | none => { ret := false, self := s2, threads_started := 0 }
        | some lt =>
          let s3 := { s2 with old_buf_life_time_ := lt }
          let r := s3.switch_monitor_.Init conf.switch_monitor fs
          let s4 := { s3 with switch_monitor_ := r.2 }
          if !r.1 then { ret := false, self := s4, threads_started := 0 }
          else if !thread_ok then { ret := false, self := s4, threads_started := 0 }
          else { ret := true, self := { s4 with monitor_thread_ := true }, threads_started := 1 }

/-! ## The background loop `MonitorUpdate` -/

/-- Program points of `MonitorUpdate`, one per statement of the loop. -/
inductive Pc
  /-- Line 157, the test `while (!buf->stop_monitor_)`. -/
  | loop_head
  /-- Line 158, `sleep(buf->monitor_interval_)`. -/
  | poll_sleep
  /-- Lines 160 to 164, `ShouldSwitchMonitor()` and, when true, `unused_idx = 1 - cur_idx_`. -/
  | poll
  /-- Line 166, `double_buffer_[unused_idx] = nullptr`. -/
  | clear_unused
  /-- Lines 168 and 169, `buffer = loader_->Load()` and the null test. -/
  | load
  /-- Lines 170 to 172, the report of a failed load, then `continue`. -/
  | report_fail
  /-- Line 174, `double_buffer_[unused_idx] = std::move(buffer)`. -/
  | install
  /-- Line 176, `cur_idx_ = unused_idx`. -/
  | flip
  /-- Lines 178 and 180, the report of a successful load and the test
  `old_buf_life_time_ > 0`. -/
  | report_ok
  /-- Line 181, `sleep(buf->old_buf_life_time_)`. -/
  | grace_sleep
  /-- Line 182, `double_buffer_[1 - cur_idx_] = nullptr`. -/
  | clear_retired
  /-- The loop has been left and the thread function returns. -/
  | exited
  deriving DecidableEq, Repr

/-- What a step of the loop did, as recorded in the history. -/
inductive Event (Buffer : Type)
  /-- A call `sleep(secs)` that has returned. -/
  | sleep (secs : Nat)
  /-- A call of `ShouldSwitchMonitor` and its result. -/
  | poll (result : Bool)
  /-- A call of `loader_->Load()` and its result. -/
  | load (result : Option Buffer)
  /-- An assignment `double_buffer_[idx] = val`, made while `cur_idx_` was `cur`. -/
  | slot_write (idx : Nat) (cur : Nat) (val : Option Buffer)
  /-- A store to `cur_idx_`. -/
  | idx_store (old : Nat) (new : Nat)
  /-- A call `SwtichDone(flag)`; `written` tells whether the done file opened, and so
  whether the marker byte was written. -/
  | done (flag : Bool) (written : Bool)
  deriving DecidableEq, Repr

/-- What the outside world contributes to one step. -/
structure Input (Buffer : Type) where
  /-- The destructor stores `stop_monitor_ = true` while this step runs. -/
  stop_request : Bool
  /-- Answers of the file system about the update file (used by the poll). -/
  fs : FsView
  /-- Result of `loader_->Load()` (used by the load). -/
  load : Option Buffer
  /-- Whether the `ofstream` on the done file opens (used by the reports). -/
  done_open : Bool
  deriving DecidableEq, Repr

/-- State of the thread running `MonitorUpdate`: the object, the program point, the
locals `unused_idx` and `buffer`, the content of the done file, and the history. -/
structure Machine (Buffer : Type) where
  buf : DoubleBuffer Buffer
  pc : Pc
  unused_idx : Nat
  buffer : Option Buffer
  done_content : Option (List Char)
  log : List (Event Buffer)
  deriving DecidableEq, Repr

/-- The thread as `Init` starts it: at the loop test, with an empty history.  The test
`buf == nullptr` that precedes the loop is never true there, since `Init` passes `this`. -/
def Machine.start {Buffer : Type} (b : DoubleBuffer Buffer) (done_content : Option (List Char)) :
    Machine Buffer :=
  { buf := b, pc := Pc.loop_head, unused_idx := 0, buffer := none,
    done_content := done_content, log := [] }

/-- The effect of the destructor on the object, when it runs during a step. -/
def Machine.request_stop {Buffer : Type} (m : Machine Buffer) (req : Bool) : Machine Buffer :=
  if req then { m with buf := { m.buf with stop_monitor_ := true } } else m

/-- One statement of `MonitorUpdate`. -/
def Machine.exec {Buffer : Type} (m : Machine Buffer) (i : Input Buffer) : Machine Buffer :=
  match m.pc with
  | Pc.loop_head =>
    if m.buf.stop_monitor_ then { m with pc := Pc.exited } else { m with pc := Pc.poll_sleep }
  | Pc.poll_sleep =>
    { m with pc := Pc.poll, log := m.log ++ [Event.sleep m.buf.monitor_interval_] }
  | Pc.poll =>
    let r := m.buf.switch_monitor_.ShouldSwitchMonitor i.fs
    let b := { m.buf with switch_monitor_ := r.2 }
    if !r.1 then { m with buf := b, pc := Pc.loop_head, log := m.log ++ [Event.poll false] }
    else
      { m with buf := b, pc := Pc.clear_unused, unused_idx := sub32 1 m.buf.cur_idx_,
               log := m.log ++ [Event.poll true] }
  | Pc.clear_unused =>
    { m with buf := m.buf.set_slot m.unused_idx none, pc := Pc.load,
             log := m.log ++ [Event.slot_write m.unused_idx m.buf.cur_idx_ none] }
  | Pc.load =>
    match i.load with
    | none => { m with buffer := none, pc := Pc.report_fail, log := m.log ++ [Event.load none] }
    | some b =>
      { m with buffer := some b, pc := Pc.install, log := m.log ++ [Event.load (some b)] }
  | Pc.report_fail =>
    { m with done_content := SwitchMonitor.SwtichDone false i.done_open m.done_content,
             pc := Pc.loop_head, log := m.log ++ [Event.done false i.done_open] }
  | Pc.install =>
    { m with buf := m.buf.set_slot m.unused_idx m.buffer, buffer := none, pc := Pc.flip,
             log := m.log ++ [Event.slot_write m.unused_idx m.buf.cur_idx_ m.buffer] }
  | Pc.flip =>
    { m with buf := { m.buf with cur_idx_ := m.unused_idx }, pc := Pc.report_ok,
             log := m.log ++ [Event.idx_store m.buf.cur_idx_ m.unused_idx] }
  | Pc.report_ok =>
    { m with done_content := SwitchMonitor.SwtichDone true i.done_open m.done_content,
             pc := if m.buf.old_buf_life_time_ > 0 then Pc.grace_sleep else Pc.loop_head,
             log := m.log ++ [Event.done true i.done_open] }
  | Pc.grace_sleep =>
    { m with pc := Pc.clear_retired, log := m.log ++ [Event.sleep m.buf.old_buf_life_time_] }
  | Pc.clear_retired =>
    { m with buf := m.buf.set_slot (sub32 1 m.buf.cur_idx_) none, pc := Pc.loop_head,
             log := m.log ++ [Event.slot_write (sub32 1 m.buf.cur_idx_) m.buf.cur_idx_ none] }
  | Pc.exited => m

/-- One step: a stop request, if any, lands, then the statement at the program point
runs. -/
def Machine.step {Buffer : Type} (m : Machine Buffer) (i : Input Buffer) : Machine Buffer :=
  (m.request_stop i.stop_request).exec i

/-- A finite run: one step per input. -/
def Machine.run {Buffer : Type} (m : Machine Buffer) (is : List (Input Buffer)) : Machine Buffer :=
  is.foldl Machine.step m

/-- The states the loop can be in after an `Init` that returned true: `Init` ran on a
freshly constructed object, and the thread it started has made any number of steps on
any inputs. -/
def Reachable {Buffer : Type} (m : Machine Buffer) : Prop :=
  ∃ (loader : Bool) (conf : Conf) (first_load : Option Buffer) (fs : FsView)
    (thread_ok : Bool) (done_content : Option (List Char)) (is : List (Input Buffer)),
    ((DoubleBuffer.new Buffer loader).Init conf first_load fs thread_ok).ret = true ∧
    m = (Machine.start
          ((DoubleBuffer.new Buffer loader).Init conf first_load fs thread_ok).self
          done_content).run is

/-! ## Predicates on states and histories used in the statements -/

/-- The loop invariant: `cur_idx_` is 0 or 1 and names a non-empty slot; between the
computation of `unused_idx` and the store to `cur_idx_` the local `unused_idx` is the
other index; the loaded `buffer` is non-null when it is installed; the standby slot is
non-empty when the index is stored. -/
def Inv {Buffer : Type} (m : Machine Buffer) : Prop :=
  m.buf.cur_idx_ < 2 ∧ (m.buf.slot m.buf.cur_idx_).isSome = true ∧
  match m.pc with
  | Pc.clear_unused => m.unused_idx + m.buf.cur_idx_ = 1
  | Pc.load => m.unused_idx + m.buf.cur_idx_ = 1
  | Pc.install => m.unused_idx + m.buf.cur_idx_ = 1 ∧ m.buffer.isSome = true
  | Pc.flip => m.unused_idx + m.buf.cur_idx_ = 1 ∧ (m.buf.slot m.unused_idx).isSome = true
  | _ => True

/-- Every recorded slot assignment went to the index other than the `cur_idx_` of its
moment. -/
def WritesStandby {Buffer : Type} (m : Machine Buffer) : Prop :=
  ∀ idx cur v, Event.slot_write idx cur v ∈ m.log → idx + cur = 1

/-- A load that returned a snapshot. -/
def Event.is_load_ok {Buffer : Type} : Event Buffer → Bool
  | Event.load (some _) => true
  | _ => false

/-- A load that returned null. -/
def Event.is_load_null {Buffer : Type} : Event Buffer → Bool
  | Event.load none => true
  | _ => false

/-- A store to `cur_idx_`. -/
def Event.is_idx_store {Buffer : Type} : Event Buffer → Bool
  | Event.idx_store _ _ => true
  | _ => false

/-- A poll with the given result. -/
def Event.is_poll {Buffer : Type} (result : Bool) : Event Buffer → Bool
  | Event.poll r => r == result
  | _ => false

/-- A call `SwtichDone(flag)`. -/
def Event.is_done {Buffer : Type} (flag : Bool) : Event Buffer → Bool
  | Event.done f _ => f == flag
  | _ => false

/-- A call `SwtichDone(flag)` whose marker byte reached the done file. -/
def Event.is_marker {Buffer : Type} (flag : Bool) : Event Buffer → Bool
  | Event.done f w => w && (f == flag)
  | _ => false

/-- The content of the done file after the calls of `SwtichDone` recorded in a stretch
of history, starting from `content`. -/
def replay_done {Buffer : Type} (content : Option (List Char)) :
    List (Event Buffer) → Option (List Char)
  | [] => content
  | Event.done flag written :: es =>
    replay_done (SwitchMonitor.SwtichDone flag written content) es
  | Event.sleep _ :: es => replay_done content es
  | Event.poll _ :: es => replay_done content es
  | Event.load _ :: es => replay_done content es
  | Event.slot_write _ _ _ :: es => replay_done content es
  | Event.idx_store _ _ :: es => replay_done content es

/-- 1 at the program points between a successful load and the store to `cur_idx_`. -/
def pending_store : Pc → Nat
  | Pc.install => 1
  | Pc.flip => 1
  | _ => 0

/-- 1 at the program points between a successful load and its report. -/
def pending_report_ok : Pc → Nat
  | Pc.install => 1
  | Pc.flip => 1
  | Pc.report_ok => 1
  | _ => 0

/-- 1 at the program point between a failed load and its report. -/
def pending_report_fail : Pc → Nat
  | Pc.report_fail => 1
  | _ => 0

/-- 1 at the program points between a true poll and the load. -/
def pending_load : Pc → Nat
  | Pc.clear_unused => 1
  | Pc.load => 1
  | _ => 0

/-- The bookkeeping of a run: stores, reports and loads match up to the one reload in
flight, `cur_idx_` is the parity of the number of stores, and every store changed the
index. -/
def Tally {Buffer : Type} (m : Machine Buffer) : Prop :=
  m.log.countP Event.is_idx_store + pending_store m.pc = m.log.countP Event.is_load_ok ∧
  m.log.countP (Event.is_done true) + pending_report_ok m.pc
    = m.log.countP Event.is_load_ok ∧
  m.log.countP (Event.is_done false) + pending_report_fail m.pc
    = m.log.countP Event.is_load_null ∧
  m.log.countP Event.is_load_ok + m.log.countP Event.is_load_null + pending_load m.pc
    = m.log.countP (Event.is_poll true) ∧
  m.buf.cur_idx_ = m.log.countP Event.is_idx_store % 2 ∧
  (∀ old new, Event.idx_store old new ∈ m.log → new + old = 1)

/-- A poll, whatever its result. -/
def Event.is_any_poll {Buffer : Type} : Event Buffer → Bool
  | Event.poll _ => true
  | _ => false

/-- A load, whatever its result. -/
def Event.is_any_load {Buffer : Type} : Event Buffer → Bool
  | Event.load _ => true
  | _ => false

/-- The most statements the loop still runs from a program point once `stop_monitor_`
is set: the rest of the iteration, then the loop test. -/
def steps_to_exit : Pc → Nat
  | Pc.exited => 0
  | Pc.loop_head => 1
  | Pc.clear_retired => 2
  | Pc.report_fail => 2
  | Pc.grace_sleep => 3
  | Pc.report_ok => 4
  | Pc.flip => 5
  | Pc.install => 6
  | Pc.load => 7
  | Pc.clear_unused => 8
  | Pc.poll => 9
  | Pc.poll_sleep => 10

/-- The polls the rest of the iteration still makes. -/
def polls_left : Pc → Nat
  | Pc.poll_sleep => 1
  | Pc.poll => 1
  | _ => 0

/-- The most loads the rest of the iteration still makes. -/
def loads_left : Pc → Nat
  | Pc.poll_sleep => 1
  | Pc.poll => 1
  | Pc.clear_unused => 1
  | Pc.load => 1
  | _ => 0

/-- The most stores to `cur_idx_` the rest of the iteration still makes. -/
def stores_left : Pc → Nat
  | Pc.poll_sleep => 1
  | Pc.poll => 1
  | Pc.clear_unused => 1
  | Pc.load => 1
  | Pc.install => 1
  | Pc.flip => 1
  | _ => 0

/-- What remains bounded once `stop_monitor_` is set, relative to budgets `p`, `l`, `s`
for polls, loads and index stores. -/
def Stopping {Buffer : Type} (m : Machine Buffer) (n p l s : Nat) : Prop :=
  m.buf.stop_monitor_ = true ∧
  steps_to_exit m.pc ≤ n ∧
  m.log.countP Event.is_any_poll + polls_left m.pc = p ∧
  m.log.countP Event.is_any_load + loads_left m.pc ≤ l ∧
  m.log.countP Event.is_idx_store + stores_left m.pc ≤ s

/-! ## Concrete data used to instantiate the theorems -/

/-- A complete configuration with a grace period of `lt` seconds. -/
def sample_conf (lt : Nat) : Conf :=
  { monitor_interval := some 3, old_buf_life_time := some lt,
    switch_monitor := some { update_file := some "update", done_file := some "done" } }

/-- An existing update file whose modification time is `t`. -/
def sample_fs (t : Int) : FsView := { access_ok := true, open_ok := true, stat := some t }

/-- An input for a step of a loop over `Nat` snapshots. -/
def sample_input (stop : Bool) (t : Int) (load : Option Nat) (done_open : Bool) : Input Nat :=
  { stop_request := stop, fs := sample_fs t, load := load, done_open := done_open }

/-- The loop right after a successful `Init` that loaded snapshot 7 and took baseline
100, with no done file yet. -/
def sample_start (lt : Nat) : Machine Nat :=
  Machine.start
    ((DoubleBuffer.new Nat true).Init (sample_conf lt) (some 7) (sample_fs 100) true).self none

/-- Inputs of one whole iteration (ten statements) that sees modification time 200,
loads snapshot 8 and can open the done file. -/
def sample_reload : List (Input Nat) :=
  List.replicate 10 (sample_input false 200 (some 8) true)

/-- Inputs of one whole iteration (six statements) that sees modification time 200,
gets null from the loader, and whose done file opens or not as `done_open` says. -/
def sample_failed_reload (done_open : Bool) : List (Input Nat) :=
  List.replicate 6 (sample_input false 200 none done_open)

/-- Inputs of one whole iteration with a zero grace period (eight statements) that sees
modification time 200 and loads snapshot 8. -/
def sample_reload_no_grace : List (Input Nat) :=
  List.replicate 8 (sample_input false 200 (some 8) true)

/-- Inputs that bring the sample loop to the store to `cur_idx_` of its first reload. -/
def sample_to_flip : List (Input Nat) :=
  List.replicate 6 (sample_input false 200 (some 8) true)

/-- Inputs of one whole successful iteration (ten statements) during which the done
file cannot be opened. -/
def sample_reload_unwritable : List (Input Nat) :=
  List.replicate 10 (sample_input false 200 (some 8) false)

/-- Inputs for the sample loop: the loop test, then the poll sleep during which the
destructor stores `stop_monitor_ = true`. -/
def sample_stop_in_sleep : List (Input Nat) :=
  [sample_input false 200 (some 8) true, sample_input true 200 (some 8) true]

/-- Inputs for the eight statements that follow the poll sleep in a successful reload. -/
def sample_after_sleep : List (Input Nat) :=
  List.replicate 8 (sample_input false 200 (some 8) true)

/-! ## Properties of `SwitchMonitor` -/

theorem Create_of_access_ok (fs : FsView) (h : fs.access_ok = true) :
    SwitchMonitor.Create fs = true := by
  simp [SwitchMonitor.Create, h]

/-- A poll whose observed modification time is not above the baseline (or whose
`Create` or `stat` fails) returns false and leaves the monitor as it was. -/
theorem ShouldSwitchMonitor_not_above (self : SwitchMonitor) (v : FsView)
    (h : ∀ t, v.stat = some t → t ≤ self.last_modify_time_) :
    self.ShouldSwitchMonitor v = (false, self) := by
  unfold SwitchMonitor.ShouldSwitchMonitor
  split
  · rfl
  · cases hs : v.stat with
    | none => rfl
    | some t =>
      have := h t hs
      simp only
      rw [if_neg (by omega)]

/-- A poll that returns false leaves the monitor as it was. -/
theorem ShouldSwitchMonitor_false_unchanged (self : SwitchMonitor) (v : FsView)
    (h : (self.ShouldSwitchMonitor v).1 = false) : (self.ShouldSwitchMonitor v).2 = self := by
  unfold SwitchMonitor.ShouldSwitchMonitor at h ⊢
  cases hc : SwitchMonitor.Create v
  · simp
  · cases hs : v.stat with
    | none => simp
    | some t =>
      by_cases hgt : t > self.last_modify_time_
      · simp [hc, hs, hgt] at h
      · simp [hgt]

theorem polls_not_above (self : SwitchMonitor) (vs : List FsView)
    (h : ∀ v ∈ vs, ∀ t, v.stat = some t → t ≤ self.last_modify_time_) :
    self.polls vs = (List.replicate vs.length false, self) := by
  induction vs with
  | nil => rfl
  | cons v vs ih =>
    have hv := ShouldSwitchMonitor_not_above self v (h v (List.mem_cons_self _ _))
    have ih2 := ih (fun w hw => h w (List.mem_cons_of_mem _ hw))
    simp [SwitchMonitor.polls, hv, ih2, List.replicate_succ]

theorem ShouldSwitchMonitor_above (self : SwitchMonitor) (v : FsView) (t : Int)
    (hc : SwitchMonitor.Create v = true) (hs : v.stat = some t)
    (h : self.last_modify_time_ < t) :
    self.ShouldSwitchMonitor v = (true, { self with last_modify_time_ := t }) := by
  unfold SwitchMonitor.ShouldSwitchMonitor
  simp [hc, hs, h]

/-- C4. With baseline `b` and an update file that exists and can be stat-ed, once the
modification time has been raised (by any number of bumps with no poll in between) to
`m > b`: the next `ShouldSwitchMonitor` returns true and stores `m` as the baseline;
every later call that sees a modification time not above `m` returns false and keeps
the baseline; so `k + 1` polls of the unchanged file give one true followed by `k`
falses; and a later rise above `m` gives true again. -/
theorem ShouldSwitchMonitor_true_once_per_bump (self : SwitchMonitor) (f : UpdateFile)
    (ts : List Int) (later : List FsView) (k : Nat)
    (hbump : self.last_modify_time_ < (f.touches ts).mtime)
    (hlater : ∀ v ∈ later, ∀ t, v.stat = some t → t ≤ (f.touches ts).mtime) :
    (self.ShouldSwitchMonitor (f.touches ts).view).1 = true ∧
    (self.ShouldSwitchMonitor (f.touches ts).view).2.last_modify_time_ = (f.touches ts).mtime ∧
    ((self.ShouldSwitchMonitor (f.touches ts).view).2.polls later).1
      = List.replicate later.length false ∧
    ((self.ShouldSwitchMonitor (f.touches ts).view).2.polls later).2.last_modify_time_
      = (f.touches ts).mtime ∧
    (self.polls (List.replicate (k + 1) (f.touches ts).view)).1
      = true :: List.replicate k false ∧
    (∀ (v : FsView) (t : Int), SwitchMonitor.Create v = true → v.stat = some t →
      (f.touches ts).mtime < t →
      (((self.ShouldSwitchMonitor (f.touches ts).view).2.polls later).2.ShouldSwitchMonitor v).1
        = true) := by
  have hfirst := ShouldSwitchMonitor_above self (f.touches ts).view (f.touches ts).mtime
    (Create_of_access_ok _ rfl) rfl hbump
  have hl := polls_not_above { self with last_modify_time_ := (f.touches ts).mtime } later hlater
  have hk := polls_not_above { self with last_modify_time_ := (f.touches ts).mtime }
    (List.replicate k (f.touches ts).view) (by
      intro v hv t ht
      rw [List.eq_of_mem_replicate hv] at ht
      simp only [UpdateFile.view, Option.some.injEq] at ht
      exact le_of_eq ht.symm)
  refine ⟨by rw [hfirst], by rw [hfirst], by rw [hfirst, hl], by rw [hfirst, hl], ?_, ?_⟩
  · rw [List.replicate_succ, SwitchMonitor.polls]
    simp only [hfirst, hk, List.length_replicate]
  · intro v t hc hs hlt
    rw [hfirst, hl, ShouldSwitchMonitor_above _ v t hc hs hlt]

/-- Two bumps (to 5, then to 9) over baseline 0, then three polls: one true, two falses. -/
theorem ShouldSwitchMonitor_true_once_per_bump_witness :
    (SwitchMonitor.new.polls
      (List.replicate (2 + 1) ((UpdateFile.mk 0).touches [5, 9]).view)).1
      = [true, false, false] :=
  (ShouldSwitchMonitor_true_once_per_bump SwitchMonitor.new (UpdateFile.mk 0) [5, 9] [] 2
    (by decide) (by simp)).2.2.2.2.1

/-! ## Properties of `DoubleBuffer::Init` -/

/-- C8, as stated, fails: the loader is present, the first `Load()` returns snapshot 7,
every key is there and converts, `SwitchMonitor::Init` succeeds, yet `Init` returns
false and starts no loop, because the `std::thread` constructor threw and the exception
was caught. -/
theorem Init_thread_failure_counterexample :
    as_uint32 (sample_conf 30).monitor_interval = some 3 ∧
    as_uint32 (sample_conf 30).old_buf_life_time = some 30 ∧
    (SwitchMonitor.new.Init (sample_conf 30).switch_monitor (sample_fs 100)).1 = true ∧
    ((DoubleBuffer.new Nat true).Init (sample_conf 30) (some 7) (sample_fs 100) false).ret
      = false ∧
    ((DoubleBuffer.new Nat true).Init (sample_conf 30) (some 7) (sample_fs 100)
      false).threads_started = 0 ∧
    ((DoubleBuffer.new Nat true).Init (sample_conf 30) (some 7) (sample_fs 100)
      false).self.double_buffer_ = (some 7, none) := by
  decide

/-- C8, amended. `Init` on a freshly constructed object returns false exactly when the
loader is absent, the first `Load()` returns null, `monitor_interval` or
`old_buf_life_time` is missing or does not convert, `SwitchMonitor::Init` fails (the
`switch_monitor` node or one of its two keys is missing, or the update file cannot be
created or stat-ed), or the `std::thread` cannot be constructed; it then starts no
thread.  Otherwise it returns true with the loaded snapshot in slot 0, slot 1 empty,
`cur_idx_` 0, and one thread started. -/
theorem Init_contract {Buffer : Type} (loader : Bool) (conf : Conf)
    (first_load : Option Buffer) (fs : FsView) (thread_ok : Bool) :
    (((DoubleBuffer.new Buffer loader).Init conf first_load fs thread_ok).ret = false ↔
      (loader = false ∨ first_load = none ∨ as_uint32 conf.monitor_interval = none ∨
        as_uint32 conf.old_buf_life_time = none ∨
        (SwitchMonitor.new.Init conf.switch_monitor fs).1 = false ∨ thread_ok = false)) ∧
    ((SwitchMonitor.new.Init conf.switch_monitor fs).1 = false ↔
      (conf.switch_monitor = none ∨
        (∃ c, conf.switch_monitor = some c ∧ (c.update_file = none ∨ c.done_file = none)) ∨
        SwitchMonitor.Create fs = false ∨ fs.stat = none)) ∧
    (((DoubleBuffer.new Buffer loader).Init conf first_load fs thread_ok).ret = false →
      ((DoubleBuffer.new Buffer loader).Init conf first_load fs thread_ok).threads_started = 0 ∧
      ((DoubleBuffer.new Buffer loader).Init conf first_load fs thread_ok).self.monitor_thread_
        = false) ∧
    (((DoubleBuffer.new Buffer loader).Init conf first_load fs thread_ok).ret = true →
      first_load ≠ none ∧
      ((DoubleBuffer.new Buffer loader).Init conf first_load fs thread_ok).self.double_buffer_
        = (first_load, none) ∧
      ((DoubleBuffer.new Buffer loader).Init conf first_load fs thread_ok).self.cur_idx_ = 0 ∧
      ((DoubleBuffer.new Buffer loader).Init conf first_load fs thread_ok).self.stop_monitor_
        = false ∧
      ((DoubleBuffer.new Buffer loader).Init conf first_load fs thread_ok).threads_started = 1 ∧
      ((DoubleBuffer.new Buffer loader).Init conf first_load fs thread_ok).self.monitor_thread_
        = true) := by
  have hmon : (SwitchMonitor.new.Init conf.switch_monitor fs).1 = false ↔
      (conf.switch_monitor = none ∨
        (∃ c, conf.switch_monitor = some c ∧ (c.update_file = none ∨ c.done_file = none)) ∨
        SwitchMonitor.Create fs = false ∨ fs.stat = none) := by
    unfold SwitchMonitor.Init SwitchMonitor.Attach
    rcases conf.switch_monitor with _ | ⟨u, d⟩
    · simp
    · rcases u with _ | u <;> rcases d with _ | d <;> simp
      cases hc : SwitchMonitor.Create fs <;> cases hs : fs.stat <;> simp
  refine ⟨?_, hmon, ?_, ?_⟩
  all_goals
    cases loader <;> cases first_load <;> cases thread_ok <;>
      cases hmi : as_uint32 conf.monitor_interval <;>
      cases hlt : as_uint32 conf.old_buf_life_time <;>
      cases hm : (SwitchMonitor.new.Init conf.switch_monitor fs).1 <;>
      simp [DoubleBuffer.Init, DoubleBuffer.new, DoubleBuffer.set_slot, hmi, hlt, hm]

/-- What a successful `Init` on a fresh object leaves in the fields the loop uses. -/
theorem Init_true_state {Buffer : Type} (loader : Bool) (conf : Conf)
    (first_load : Option Buffer) (fs : FsView) (thread_ok : Bool)
    (h : ((DoubleBuffer.new Buffer loader).Init conf first_load fs thread_ok).ret = true) :
    first_load ≠ none ∧
    ((DoubleBuffer.new Buffer loader).Init conf first_load fs thread_ok).self.double_buffer_
      = (first_load, none) ∧
    ((DoubleBuffer.new Buffer loader).Init conf first_load fs thread_ok).self.cur_idx_ = 0 := by
  revert h
  cases loader <;> cases first_load <;> cases thread_ok <;>
    cases hmi : as_uint32 conf.monitor_interval <;>
    cases hlt : as_uint32 conf.old_buf_life_time <;>
    cases hm : (SwitchMonitor.new.Init conf.switch_monitor fs).1 <;>
    simp [DoubleBuffer.Init, DoubleBuffer.new, DoubleBuffer.set_slot, hmi, hlt, hm]

/-! ## Invariants of the loop -/

theorem sub32_one_zero : sub32 1 0 = 1 := by decide

theorem sub32_one_one : sub32 1 1 = 0 := by decide

theorem sub32_one_lt_two (c : Nat) (h : c < 2) : sub32 1 c + c = 1 := by
  have hc : c = 0 ∨ c = 1 := by omega
  rcases hc with rfl | rfl
  · rw [sub32_one_zero]
  · rw [sub32_one_one]

theorem Inv_start {Buffer : Type} (loader : Bool) (conf : Conf)
    (first_load : Option Buffer) (fs : FsView) (thread_ok : Bool) (dc : Option (List Char))
    (h : ((DoubleBuffer.new Buffer loader).Init conf first_load fs thread_ok).ret = true) :
    Inv (Machine.start
      ((DoubleBuffer.new Buffer loader).Init conf first_load fs thread_ok).self dc) := by
  obtain ⟨h1, h2, h3⟩ := Init_true_state loader conf first_load fs thread_ok h
  refine ⟨by simp [Machine.start, h3], ?_, by simp [Machine.start]⟩
  cases first_load with
  | none => exact absurd rfl h1
  | some b => simp [Machine.start, DoubleBuffer.slot, h2, h3]

/-- A stop request only touches `stop_monitor_`. -/
theorem request_stop_eq {Buffer : Type} (m : Machine Buffer) (r : Bool) :
    m.request_stop r
      = { m with buf := { m.buf with stop_monitor_ := m.buf.stop_monitor_ || r } } := by
  cases r <;> simp [Machine.request_stop]

theorem Inv_request_stop {Buffer : Type} (m : Machine Buffer) (r : Bool) (h : Inv m) :
    Inv (m.request_stop r) := by
  rw [request_stop_eq]
  exact h

@[simp]
theorem request_stop_buf {Buffer : Type} (m : Machine Buffer) (r : Bool) :
    (m.request_stop r).buf = { m.buf with stop_monitor_ := m.buf.stop_monitor_ || r } := by
  rw [request_stop_eq]

@[simp]
theorem request_stop_pc {Buffer : Type} (m : Machine Buffer) (r : Bool) :
    (m.request_stop r).pc = m.pc := by
  rw [request_stop_eq]

@[simp]
theorem request_stop_unused_idx {Buffer : Type} (m : Machine Buffer) (r : Bool) :
    (m.request_stop r).unused_idx = m.unused_idx := by
  rw [request_stop_eq]

@[simp]
theorem request_stop_buffer {Buffer : Type} (m : Machine Buffer) (r : Bool) :
    (m.request_stop r).buffer = m.buffer := by
  rw [request_stop_eq]

@[simp]
theorem request_stop_done_content {Buffer : Type} (m : Machine Buffer) (r : Bool) :
    (m.request_stop r).done_content = m.done_content := by
  rw [request_stop_eq]

@[simp]
theorem request_stop_log {Buffer : Type} (m : Machine Buffer) (r : Bool) :
    (m.request_stop r).log = m.log := by
  rw [request_stop_eq]

@[simp]
theorem request_stop_cur_idx {Buffer : Type} (m : Machine Buffer) (r : Bool) :
    (m.request_stop r).buf.cur_idx_ = m.buf.cur_idx_ := by
  rw [request_stop_eq]

@[simp]
theorem request_stop_double_buffer {Buffer : Type} (m : Machine Buffer) (r : Bool) :
    (m.request_stop r).buf.double_buffer_ = m.buf.double_buffer_ := by
  rw [request_stop_eq]

@[simp]
theorem request_stop_switch_monitor {Buffer : Type} (m : Machine Buffer) (r : Bool) :
    (m.request_stop r).buf.switch_monitor_ = m.buf.switch_monitor_ := by
  rw [request_stop_eq]

@[simp]
theorem request_stop_monitor_interval {Buffer : Type} (m : Machine Buffer) (r : Bool) :
    (m.request_stop r).buf.monitor_interval_ = m.buf.monitor_interval_ := by
  rw [request_stop_eq]

@[simp]
theorem request_stop_old_buf_life_time {Buffer : Type} (m : Machine Buffer) (r : Bool) :
    (m.request_stop r).buf.old_buf_life_time_ = m.buf.old_buf_life_time_ := by
  rw [request_stop_eq]

@[simp]
theorem request_stop_stop_monitor {Buffer : Type} (m : Machine Buffer) (r : Bool) :
    (m.request_stop r).buf.stop_monitor_ = (m.buf.stop_monitor_ || r) := by
  rw [request_stop_eq]

@[simp]
theorem request_stop_slot {Buffer : Type} (m : Machine Buffer) (r : Bool) (k : Nat) :
    (m.request_stop r).buf.slot k = m.buf.slot k := by
  rw [request_stop_eq]
  rfl

theorem slot_set_slot_same {Buffer : Type} (b : DoubleBuffer Buffer) (k : Nat)
    (v : Option Buffer) (hk : k < 2) : (b.set_slot k v).slot k = v := by
  have hk2 : k = 0 ∨ k = 1 := by omega
  rcases hk2 with rfl | rfl <;> simp [DoubleBuffer.slot, DoubleBuffer.set_slot]

theorem slot_set_slot_other {Buffer : Type} (b : DoubleBuffer Buffer) (k j : Nat)
    (v : Option Buffer) (hkj : k ≠ j) : (b.set_slot k v).slot j = b.slot j := by
  unfold DoubleBuffer.set_slot DoubleBuffer.slot
  by_cases h0 : k = 0
  · subst h0
    have : ¬ j = 0 := fun h => hkj h.symm
    simp [this]
  · by_cases h1 : k = 1
    · subst h1
      by_cases hj : j = 0
      · simp [hj]
      · have : ¬ j = 1 := fun h => hkj h.symm
        simp [hj, this]
    · simp [h0, h1]

theorem set_slot_eq {Buffer : Type} (b : DoubleBuffer Buffer) (k : Nat) (v : Option Buffer) :
    b.set_slot k v =
      { b with double_buffer_ :=
          if k = 0 then (v, b.double_buffer_.2)
          else if k = 1 then (b.double_buffer_.1, v) else b.double_buffer_ } := by
  unfold DoubleBuffer.set_slot
  split
  · rfl
  · split <;> rfl

theorem set_slot_cur_idx {Buffer : Type} (b : DoubleBuffer Buffer) (k : Nat)
    (v : Option Buffer) : (b.set_slot k v).cur_idx_ = b.cur_idx_ := by
  unfold DoubleBuffer.set_slot
  split
  · rfl
  · split <;> rfl

theorem Inv_exec {Buffer : Type} (m : Machine Buffer) (i : Input Buffer) (h : Inv m) :
    Inv (m.exec i) := by
  obtain ⟨hc, hs, hp⟩ := h
  unfold Machine.exec
  cases hpc : m.pc <;> simp only [hpc] at hp ⊢
  case loop_head =>
    split <;> exact ⟨hc, hs, trivial⟩
  case poll_sleep => exact ⟨hc, hs, trivial⟩
  case poll =>
    split
    · exact ⟨hc, hs, trivial⟩
    · exact ⟨hc, hs, sub32_one_lt_two _ hc⟩
  case clear_unused =>
    refine ⟨by simpa [set_slot_cur_idx] using hc, ?_, by simpa [Inv, set_slot_cur_idx] using hp⟩
    simp only [set_slot_cur_idx]
    rw [slot_set_slot_other _ _ _ _ (by omega)]
    exact hs
  case load =>
    cases i.load with
    | none => exact ⟨hc, hs, trivial⟩
    | some b => exact ⟨hc, hs, hp, rfl⟩
  case report_fail => exact ⟨hc, hs, trivial⟩
  case install =>
    refine ⟨by simpa [set_slot_cur_idx] using hc, ?_, ?_⟩
    · simp only [set_slot_cur_idx]
      rw [slot_set_slot_other _ _ _ _ (by omega)]
      exact hs
    · refine ⟨by simpa [set_slot_cur_idx] using hp.1, ?_⟩
      simp only
      rw [slot_set_slot_same _ _ _ (by omega)]
      exact hp.2
  case flip =>
    exact ⟨by simp only; omega, hp.2, trivial⟩
  case report_ok =>
    refine ⟨hc, hs, ?_⟩
    simp only
    by_cases hg : m.buf.old_buf_life_time_ > 0
    · rw [if_pos hg]
      trivial
    · rw [if_neg hg]
      trivial
  case grace_sleep => exact ⟨hc, hs, trivial⟩
  case clear_retired =>
    refine ⟨by simpa [set_slot_cur_idx] using hc, ?_, trivial⟩
    simp only [set_slot_cur_idx]
    rw [slot_set_slot_other _ _ _ _ (by have := sub32_one_lt_two _ hc; omega)]
    exact hs
  case exited => exact ⟨hc, hs, by simp only [hpc]⟩

theorem Inv_step {Buffer : Type} (m : Machine Buffer) (i : Input Buffer) (h : Inv m) :
    Inv (m.step i) :=
  Inv_exec _ i (Inv_request_stop m i.stop_request h)

theorem Inv_run {Buffer : Type} (is : List (Input Buffer)) (m : Machine Buffer) (h : Inv m) :
    Inv (m.run is) := by
  induction is generalizing m with
  | nil => exact h
  | cons i is ih => exact ih (m.step i) (Inv_step m i h)

theorem Reachable.inv {Buffer : Type} {m : Machine Buffer} (h : Reachable m) : Inv m := by
  obtain ⟨loader, conf, fl, fs, tk, dc, is, hret, rfl⟩ := h
  exact Inv_run is _ (Inv_start loader conf fl fs tk dc hret)

theorem Reachable.step {Buffer : Type} {m : Machine Buffer} (h : Reachable m)
    (i : Input Buffer) : Reachable (m.step i) := by
  obtain ⟨loader, conf, fl, fs, tk, dc, is, hret, rfl⟩ := h
  exact ⟨loader, conf, fl, fs, tk, dc, is ++ [i], hret,
    by simp [Machine.run, List.foldl_append]⟩

/-- Proof principle for reachable states. -/
theorem Reachable.induction {Buffer : Type} (P : Machine Buffer → Prop)
    (h0 : ∀ (loader : Bool) (conf : Conf) (fl : Option Buffer) (fs : FsView) (tk : Bool)
      (dc : Option (List Char)),
      ((DoubleBuffer.new Buffer loader).Init conf fl fs tk).ret = true →
      P (Machine.start ((DoubleBuffer.new Buffer loader).Init conf fl fs tk).self dc))
    (hstep : ∀ m i, Reachable m → P m → P (m.step i))
    {m : Machine Buffer} (h : Reachable m) : P m := by
  obtain ⟨loader, conf, fl, fs, tk, dc, is, hret, rfl⟩ := h
  induction is using List.reverseRecOn with
  | nil => exact h0 loader conf fl fs tk dc hret
  | append_singleton is i ih =>
    have hr : Reachable ((Machine.start
        ((DoubleBuffer.new Buffer loader).Init conf fl fs tk).self dc).run is) :=
      ⟨loader, conf, fl, fs, tk, dc, is, hret, rfl⟩
    have := hstep _ i hr ih
    simpa [Machine.run, List.foldl_append] using this

/-- C1. In every state the loop can reach after `Init` returned true, whatever the poll
results, the loader results, the stop requests and the configured periods, `cur_idx_`
is inside the array and `double_buffer_[cur_idx_]` is non-null, so `get_buffer()` never
returns a null handle. -/
theorem get_buffer_never_null {Buffer : Type} (m : Machine Buffer) (h : Reachable m) :
    m.buf.cur_idx_ < BUF_SIZE ∧ m.buf.slot m.buf.cur_idx_ ≠ none ∧
    m.buf.get_buffer ≠ none := by
  obtain ⟨hc, hs, _⟩ := h.inv
  have hne : m.buf.slot m.buf.cur_idx_ ≠ none := by
    intro hn
    rw [hn] at hs
    exact Bool.noConfusion hs
  exact ⟨hc, hne, hne⟩

/-- After one whole reload of the sample loop the served snapshot is the new one, not null. -/
theorem get_buffer_never_null_witness :
    ((sample_start 30).run sample_reload).buf.get_buffer = some 8 ∧
    ((sample_start 30).run sample_reload).buf.get_buffer ≠ none :=
  ⟨by decide,
   (get_buffer_never_null ((sample_start 30).run sample_reload)
      ⟨true, sample_conf 30, some 7, sample_fs 100, true, none, sample_reload, by decide, rfl⟩).2.2⟩

/-! ## Slot writes -/

theorem WritesStandby_exec {Buffer : Type} (m : Machine Buffer) (i : Input Buffer)
    (hI : Inv m) (h : WritesStandby m) : WritesStandby (m.exec i) := by
  obtain ⟨hc, _, hp⟩ := hI
  intro idx cur v hmem
  unfold Machine.exec at hmem
  cases hpc : m.pc <;> simp only [hpc] at hp hmem
  case loop_head =>
    split at hmem <;> exact h idx cur v hmem
  case poll_sleep =>
    rcases List.mem_append.1 hmem with hm | hm
    · exact h idx cur v hm
    · simp at hm
  case poll =>
    split at hmem <;>
    · rcases List.mem_append.1 hmem with hm | hm
      · exact h idx cur v hm
      · simp at hm
  case clear_unused =>
    rcases List.mem_append.1 hmem with hm | hm
    · exact h idx cur v hm
    · simp only [List.mem_singleton, Event.slot_write.injEq] at hm
      obtain ⟨rfl, rfl, _⟩ := hm
      exact hp
  case load =>
    cases hl : i.load <;> simp only [hl] at hmem <;>
    · rcases List.mem_append.1 hmem with hm | hm
      · exact h idx cur v hm
      · simp at hm
  case report_fail =>
    rcases List.mem_append.1 hmem with hm | hm
    · exact h idx cur v hm
    · simp at hm
  case install =>
    rcases List.mem_append.1 hmem with hm | hm
    · exact h idx cur v hm
    · simp only [List.mem_singleton, Event.slot_write.injEq] at hm
      obtain ⟨rfl, rfl, _⟩ := hm
      exact hp.1
  case flip =>
    rcases List.mem_append.1 hmem with hm | hm
    · exact h idx cur v hm
    · simp at hm
  case report_ok =>
    rcases List.mem_append.1 hmem with hm | hm
    · exact h idx cur v hm
    · simp at hm
  case grace_sleep =>
    rcases List.mem_append.1 hmem with hm | hm
    · exact h idx cur v hm
    · simp at hm
  case clear_retired =>
    rcases List.mem_append.1 hmem with hm | hm
    · exact h idx cur v hm
    · simp only [List.mem_singleton, Event.slot_write.injEq] at hm
      obtain ⟨rfl, rfl, _⟩ := hm
      exact sub32_one_lt_two _ hc
  case exited => exact h idx cur v hmem

theorem WritesStandby_step {Buffer : Type} (m : Machine Buffer) (i : Input Buffer)
    (hI : Inv m) (h : WritesStandby m) : WritesStandby (m.step i) := by
  apply WritesStandby_exec _ i (Inv_request_stop m _ hI)
  intro idx cur v hmem
  rw [request_stop_log] at hmem
  exact h idx cur v hmem

theorem Reachable.writes_standby {Buffer : Type} {m : Machine Buffer} (h : Reachable m) :
    WritesStandby m := by
  refine Reachable.induction WritesStandby ?_ ?_ h
  · intro loader conf fl fs tk dc _ idx cur v hmem
    simp [Machine.start] at hmem
  · intro m i hr hw
    exact WritesStandby_step m i hr.inv hw

/-- What one statement does to the two cells: nothing, or one assignment to the index
other than `cur_idx_`, which it records. -/
theorem exec_slots {Buffer : Type} (m : Machine Buffer) (i : Input Buffer) (hI : Inv m) :
    (m.exec i).buf.slot m.buf.cur_idx_ = m.buf.slot m.buf.cur_idx_ ∧
    ((m.exec i).buf.double_buffer_ = m.buf.double_buffer_ ∨
      (m.exec i).log = m.log ++ [Event.slot_write (1 - m.buf.cur_idx_) m.buf.cur_idx_
        ((m.exec i).buf.slot (1 - m.buf.cur_idx_))]) := by
  obtain ⟨hc, _, hp⟩ := hI
  unfold Machine.exec
  cases hpc : m.pc <;> simp only [hpc] at hp ⊢
  case loop_head => split <;> simp
  case poll_sleep => simp
  case poll => split <;> simp [DoubleBuffer.slot]
  case clear_unused =>
    have hu : m.unused_idx = 1 - m.buf.cur_idx_ := by omega
    refine ⟨slot_set_slot_other _ _ _ _ (by omega), Or.inr ?_⟩
    rw [hu, slot_set_slot_same _ _ _ (by omega)]
  case load => cases i.load <;> simp
  case report_fail => simp
  case install =>
    have hu : m.unused_idx = 1 - m.buf.cur_idx_ := by omega
    refine ⟨slot_set_slot_other _ _ _ _ (by omega), Or.inr ?_⟩
    rw [hu, slot_set_slot_same _ _ _ (by omega)]
  case flip => simp [DoubleBuffer.slot]
  case report_ok => simp
  case grace_sleep => simp
  case clear_retired =>
    have hu : sub32 1 m.buf.cur_idx_ = 1 - m.buf.cur_idx_ := by
      have := sub32_one_lt_two _ hc
      omega
    refine ⟨slot_set_slot_other _ _ _ _ (by omega), Or.inr ?_⟩
    rw [hu, slot_set_slot_same _ _ _ (by omega)]
  case exited => simp

/-- C3. In every run of the loop after a successful `Init`: each recorded slot
assignment (the defensive clear, the install, the clear after the grace sleep) has a
target index in range and different from the value `cur_idx_` had at that moment; no
step changes the content of the slot named by `cur_idx_`; and a step that changes the
array at all is one recorded assignment to the other index. -/
theorem loop_writes_only_standby_slot {Buffer : Type} (m : Machine Buffer)
    (h : Reachable m) :
    (∀ idx cur v, Event.slot_write idx cur v ∈ m.log → cur < 2 ∧ idx < 2 ∧ idx ≠ cur) ∧
    (∀ i : Input Buffer, (m.step i).buf.slot m.buf.cur_idx_ = m.buf.slot m.buf.cur_idx_) ∧
    (∀ i : Input Buffer, (m.step i).buf.double_buffer_ ≠ m.buf.double_buffer_ →
      1 - m.buf.cur_idx_ ≠ m.buf.cur_idx_ ∧
      (m.step i).log = m.log ++ [Event.slot_write (1 - m.buf.cur_idx_) m.buf.cur_idx_
        ((m.step i).buf.slot (1 - m.buf.cur_idx_))]) := by
  refine ⟨?_, ?_, ?_⟩
  · intro idx cur v hmem
    have := h.writes_standby idx cur v hmem
    omega
  · intro i
    have := (exec_slots (m.request_stop i.stop_request) i (Inv_request_stop m _ h.inv)).1
    simpa [Machine.step] using this
  · intro i hne
    have := (exec_slots (m.request_stop i.stop_request) i (Inv_request_stop m _ h.inv)).2
    simp only [request_stop_double_buffer, request_stop_cur_idx, request_stop_log] at this
    have hc := h.inv.1
    rcases this with heq | h2
    · exact absurd heq hne
    · exact ⟨by omega, h2⟩

/-- The install and the late clear of the sample reload each went to the slot that was not
active. -/
theorem loop_writes_only_standby_slot_witness :
    Event.slot_write 1 0 (some 8) ∈ ((sample_start 30).run sample_reload).log ∧
    Event.slot_write 0 1 none ∈ ((sample_start 30).run sample_reload).log ∧
    (0 < 2 ∧ 1 < 2 ∧ 1 ≠ 0) :=
  ⟨by decide, by decide,
   (loop_writes_only_standby_slot ((sample_start 30).run sample_reload)
      ⟨true, sample_conf 30, some 7, sample_fs 100, true, none, sample_reload, by decide, rfl⟩).1
      1 0 (some 8) (by decide)⟩

/-! ## A reload whose load fails -/

/-- C2, as stated, fails: after `Init` with no done file, an iteration polls true, the
loader returns null, `SwtichDone(false)` runs but its `ofstream` does not open; the
iteration ends with `cur_idx_` and the served snapshot unchanged and with no marker in
the done file. -/
theorem failed_reload_marker_counterexample :
    ((sample_start 30).run (sample_failed_reload false)).pc = Pc.loop_head ∧
    ((sample_start 30).run (sample_failed_reload false)).log
      = [Event.sleep 3, Event.poll true, Event.slot_write 1 0 none, Event.load none,
         Event.done false false] ∧
    ((sample_start 30).run (sample_failed_reload false)).buf.get_buffer = some 7 ∧
    ((sample_start 30).run (sample_failed_reload false)).done_content ≠ some ['0'] := by
  decide

/-- C2, amended. From any state reached after a successful `Init` that stands at the
loop test with no stop pending, an iteration whose poll returns true and whose load
returns null ends back at the loop test with `cur_idx_` unchanged and the same snapshot
in `double_buffer_[cur_idx_]` (so `get_buffer()` returns the prior snapshot); it called
`SwtichDone(false)` once, which leaves `'0'` as the content of the done file when the
file opens and leaves the file as it was when it does not. -/
theorem failed_reload_keeps_snapshot {Buffer : Type} (m : Machine Buffer) (h : Reachable m)
    (i0 i1 i2 i3 i4 i5 : Input Buffer)
    (hpc : m.pc = Pc.loop_head)
    (hrun : (m.buf.stop_monitor_ || i0.stop_request) = false)
    (hpoll : (m.buf.switch_monitor_.ShouldSwitchMonitor i2.fs).1 = true)
    (hload : i4.load = none) :
    (m.run [i0, i1, i2, i3, i4, i5]).pc = Pc.loop_head ∧
    (m.run [i0, i1, i2, i3, i4, i5]).buf.cur_idx_ = m.buf.cur_idx_ ∧
    (m.run [i0, i1, i2, i3, i4, i5]).buf.slot m.buf.cur_idx_ = m.buf.slot m.buf.cur_idx_ ∧
    (m.run [i0, i1, i2, i3, i4, i5]).buf.get_buffer = m.buf.get_buffer ∧
    (m.run [i0, i1, i2, i3, i4, i5]).log = m.log ++
      [Event.sleep m.buf.monitor_interval_, Event.poll true,
       Event.slot_write (1 - m.buf.cur_idx_) m.buf.cur_idx_ none, Event.load none,
       Event.done false i5.done_open] ∧
    (m.run [i0, i1, i2, i3, i4, i5]).done_content
      = (if i5.done_open then some ['0'] else m.done_content) := by
  have hc := h.inv.1
  have h01 : m.buf.cur_idx_ = 0 ∨ m.buf.cur_idx_ = 1 := by omega
  rcases h01 with h0 | h0 <;>
    simp [Machine.run, Machine.step, Machine.exec, hpc, hrun, hpoll, hload, h0,
      sub32_one_zero, sub32_one_one, DoubleBuffer.get_buffer, SwitchMonitor.SwtichDone,
      set_slot_eq, DoubleBuffer.slot]

/-- A failed reload of the sample loop with a done file that opens: same snapshot, marker
`'0'`. -/
theorem failed_reload_keeps_snapshot_witness :
    ((sample_start 30).run (sample_failed_reload true)).buf.get_buffer
      = (sample_start 30).buf.get_buffer ∧
    ((sample_start 30).run (sample_failed_reload true)).done_content = some ['0'] :=
  ⟨(failed_reload_keeps_snapshot (sample_start 30)
      ⟨true, sample_conf 30, some 7, sample_fs 100, true, none, [], by decide, rfl⟩
      (sample_input false 200 none true) (sample_input false 200 none true)
      (sample_input false 200 none true) (sample_input false 200 none true)
      (sample_input false 200 none true) (sample_input false 200 none true)
      (by decide) (by decide) (by decide) (by decide)).2.2.2.1,
   by decide⟩

/-! ## A reload whose load succeeds -/

theorem Reachable.run {Buffer : Type} {m : Machine Buffer} (h : Reachable m)
    (is : List (Input Buffer)) : Reachable (m.run is) := by
  induction is generalizing m with
  | nil => exact h
  | cons i is ih => exact ih (h.step i)

/-- The defensive clear: an iteration whose poll returns true has emptied the standby
slot by the time it calls the loader. -/
theorem standby_empty_at_load {Buffer : Type} (m : Machine Buffer) (h : Reachable m)
    (j0 j1 j2 j3 : Input Buffer)
    (hpc : m.pc = Pc.loop_head)
    (hrun : (m.buf.stop_monitor_ || j0.stop_request) = false)
    (hpoll : (m.buf.switch_monitor_.ShouldSwitchMonitor j2.fs).1 = true) :
    (m.run [j0, j1, j2, j3]).pc = Pc.load ∧
    (m.run [j0, j1, j2, j3]).buf.slot (1 - m.buf.cur_idx_) = none := by
  have hc := h.inv.1
  have h01 : m.buf.cur_idx_ = 0 ∨ m.buf.cur_idx_ = 1 := by omega
  rcases h01 with h0 | h0 <;>
    simp [Machine.run, Machine.step, Machine.exec, hpc, hrun, hpoll, h0,
      sub32_one_zero, sub32_one_one, set_slot_eq, DoubleBuffer.slot]

/-- C6, as stated, fails: with `old_buf_life_time` 0, a successful reload ends back at
the loop test with `cur_idx_` 1 and the superseded snapshot 7 still in slot 0; no clear
of slot 0 was made. -/
theorem zero_grace_counterexample :
    (sample_start 0).buf.old_buf_life_time_ = 0 ∧
    ((sample_start 0).run sample_reload_no_grace).pc = Pc.loop_head ∧
    ((sample_start 0).run sample_reload_no_grace).buf.cur_idx_ = 1 ∧
    ((sample_start 0).run sample_reload_no_grace).buf.slot
      (1 - ((sample_start 0).run sample_reload_no_grace).buf.cur_idx_) = some 7 ∧
    ((sample_start 0).run sample_reload_no_grace).log
      = [Event.sleep 3, Event.poll true, Event.slot_write 1 0 none, Event.load (some 8),
         Event.slot_write 1 0 (some 8), Event.idx_store 0 1, Event.done true true] := by
  decide

/-- C6, amended. With `old_buf_life_time_` 0, a successful reload does not clear the
retired slot: when the iteration is back at the loop test, `cur_idx_` has flipped, the
new snapshot is served, and `double_buffer_[1 - cur_idx_]` still holds the superseded
snapshot (the iteration made no assignment after the install).  The superseded snapshot
is destroyed by the defensive clear of the next iteration whose poll returns true. -/
theorem zero_grace_keeps_retired_slot {Buffer : Type} (m : Machine Buffer) (h : Reachable m)
    (i0 i1 i2 i3 i4 i5 i6 i7 : Input Buffer) (b : Buffer)
    (hpc : m.pc = Pc.loop_head)
    (hrun : (m.buf.stop_monitor_ || i0.stop_request) = false)
    (hpoll : (m.buf.switch_monitor_.ShouldSwitchMonitor i2.fs).1 = true)
    (hload : i4.load = some b)
    (hg : m.buf.old_buf_life_time_ = 0) :
    (m.run [i0, i1, i2, i3, i4, i5, i6, i7]).pc = Pc.loop_head ∧
    (m.run [i0, i1, i2, i3, i4, i5, i6, i7]).buf.cur_idx_ = 1 - m.buf.cur_idx_ ∧
    (m.run [i0, i1, i2, i3, i4, i5, i6, i7]).buf.get_buffer = some b ∧
    m.buf.get_buffer ≠ none ∧
    (m.run [i0, i1, i2, i3, i4, i5, i6, i7]).buf.slot
      (1 - (m.run [i0, i1, i2, i3, i4, i5, i6, i7]).buf.cur_idx_) = m.buf.get_buffer ∧
    (m.run [i0, i1, i2, i3, i4, i5, i6, i7]).log = m.log ++
      [Event.sleep m.buf.monitor_interval_, Event.poll true,
       Event.slot_write (1 - m.buf.cur_idx_) m.buf.cur_idx_ none, Event.load (some b),
       Event.slot_write (1 - m.buf.cur_idx_) m.buf.cur_idx_ (some b),
       Event.idx_store m.buf.cur_idx_ (1 - m.buf.cur_idx_), Event.done true i7.done_open] ∧
    (∀ j0 j1 j2 j3 : Input Buffer,
      ((m.run [i0, i1, i2, i3, i4, i5, i6, i7]).buf.stop_monitor_ || j0.stop_request) = false →
      ((m.run [i0, i1, i2, i3, i4, i5, i6, i7]).buf.switch_monitor_.ShouldSwitchMonitor
        j2.fs).1 = true →
      (((m.run [i0, i1, i2, i3, i4, i5, i6, i7]).run [j0, j1, j2, j3]).pc = Pc.load ∧
       ((m.run [i0, i1, i2, i3, i4, i5, i6, i7]).run [j0, j1, j2, j3]).buf.slot
        (1 - (m.run [i0, i1, i2, i3, i4, i5, i6, i7]).buf.cur_idx_) = none)) := by
  have hc := h.inv.1
  have hs := h.inv.2.1
  have hne : m.buf.get_buffer ≠ none := by
    intro hn
    rw [DoubleBuffer.get_buffer] at hn
    rw [hn] at hs
    exact Bool.noConfusion hs
  have hpc8 : (m.run [i0, i1, i2, i3, i4, i5, i6, i7]).pc = Pc.loop_head := by
    simp [Machine.run, Machine.step, Machine.exec, hpc, hrun, hpoll, hload, hg, set_slot_eq]
  have h01 : m.buf.cur_idx_ = 0 ∨ m.buf.cur_idx_ = 1 := by omega
  refine ⟨hpc8, ?_, ?_, hne, ?_, ?_, fun j0 j1 j2 j3 hrun2 hpoll2 =>
    standby_empty_at_load _ (h.run _) j0 j1 j2 j3 hpc8 hrun2 hpoll2⟩
  all_goals
    rcases h01 with h0 | h0 <;>
      simp [Machine.run, Machine.step, Machine.exec, hpc, hrun, hpoll, hload, hg, h0,
        sub32_one_zero, sub32_one_one, DoubleBuffer.get_buffer, set_slot_eq,
        DoubleBuffer.slot]

/-- The sample reload with a zero grace period: the retired slot still holds snapshot 7. -/
theorem zero_grace_keeps_retired_slot_witness :
    ((sample_start 0).run sample_reload_no_grace).buf.slot
      (1 - ((sample_start 0).run sample_reload_no_grace).buf.cur_idx_)
      = (sample_start 0).buf.get_buffer ∧
    (sample_start 0).buf.get_buffer = some 7 :=
  ⟨(zero_grace_keeps_retired_slot (sample_start 0)
      ⟨true, sample_conf 0, some 7, sample_fs 100, true, none, [], by decide, rfl⟩
      (sample_input false 200 (some 8) true) (sample_input false 200 (some 8) true)
      (sample_input false 200 (some 8) true) (sample_input false 200 (some 8) true)
      (sample_input false 200 (some 8) true) (sample_input false 200 (some 8) true)
      (sample_input false 200 (some 8) true) (sample_input false 200 (some 8) true) 8
      (by decide) (by decide) (by decide) (by decide) (by decide)).2.2.2.2.1,
   by decide⟩

/-- C7. From any state reached after a successful `Init` that is about to store the new
index: the snapshot served until then is non-null and stays in its slot after the
store and after the report; with a positive `old_buf_life_time_` the loop then sleeps
that long, the snapshot is still in its slot when the sleep has returned, and only the
statement after the sleep empties the slot; with `old_buf_life_time_` 0 the iteration
ends after the report, without a clear. -/
theorem retired_snapshot_held_through_grace {Buffer : Type} (m : Machine Buffer)
    (h : Reachable m) (i1 i2 i3 i4 : Input Buffer) (hpc : m.pc = Pc.flip) :
    m.buf.get_buffer ≠ none ∧
    (m.run [i1]).pc = Pc.report_ok ∧
    (m.run [i1]).buf.cur_idx_ = 1 - m.buf.cur_idx_ ∧
    (m.run [i1]).buf.cur_idx_ ≠ m.buf.cur_idx_ ∧
    (m.run [i1]).buf.slot m.buf.cur_idx_ = m.buf.get_buffer ∧
    (m.run [i1, i2]).buf.slot m.buf.cur_idx_ = m.buf.get_buffer ∧
    (m.run [i1, i2]).log = m.log ++
      [Event.idx_store m.buf.cur_idx_ (1 - m.buf.cur_idx_), Event.done true i2.done_open] ∧
    (0 < m.buf.old_buf_life_time_ →
      (m.run [i1, i2]).pc = Pc.grace_sleep ∧
      (m.run [i1, i2, i3]).pc = Pc.clear_retired ∧
      (m.run [i1, i2, i3]).buf.slot m.buf.cur_idx_ = m.buf.get_buffer ∧
      (m.run [i1, i2, i3]).log = (m.run [i1, i2]).log ++
        [Event.sleep m.buf.old_buf_life_time_] ∧
      (m.run [i1, i2, i3, i4]).pc = Pc.loop_head ∧
      (m.run [i1, i2, i3, i4]).buf.slot m.buf.cur_idx_ = none ∧
      (m.run [i1, i2, i3, i4]).log = (m.run [i1, i2]).log ++
        [Event.sleep m.buf.old_buf_life_time_,
         Event.slot_write m.buf.cur_idx_ (1 - m.buf.cur_idx_) none]) ∧
    (m.buf.old_buf_life_time_ = 0 → (m.run [i1, i2]).pc = Pc.loop_head) := by
  obtain ⟨hc, hs, hp⟩ := h.inv
  simp only [hpc] at hp
  have hne : m.buf.get_buffer ≠ none := by
    intro hn
    rw [DoubleBuffer.get_buffer] at hn
    rw [hn] at hs
    exact Bool.noConfusion hs
  have hu : m.unused_idx = 1 - m.buf.cur_idx_ := by omega
  have h01 : m.buf.cur_idx_ = 0 ∨ m.buf.cur_idx_ = 1 := by omega
  refine ⟨hne, ?_, ?_, ?_, ?_, ?_, ?_, ?_, ?_⟩
  · simp [Machine.run, Machine.step, Machine.exec, hpc]
  · simp [Machine.run, Machine.step, Machine.exec, hpc, hu]
  · rcases h01 with h0 | h0 <;> simp [Machine.run, Machine.step, Machine.exec, hpc, hu, h0]
  · simp [Machine.run, Machine.step, Machine.exec, hpc, DoubleBuffer.get_buffer,
      DoubleBuffer.slot]
  · simp [Machine.run, Machine.step, Machine.exec, hpc, DoubleBuffer.get_buffer,
      DoubleBuffer.slot]
  · simp [Machine.run, Machine.step, Machine.exec, hpc, hu]
  · intro hg
    rcases h01 with h0 | h0 <;>
      simp [Machine.run, Machine.step, Machine.exec, hpc, hu, hg, h0, sub32_one_zero,
        sub32_one_one, DoubleBuffer.get_buffer, set_slot_eq, DoubleBuffer.slot]
  · intro hg
    simp [Machine.run, Machine.step, Machine.exec, hpc, hg]

/-- The sample reload with grace period 30: snapshot 7 is still in its slot when the grace
sleep has returned, even with a stop request meanwhile. -/
theorem retired_snapshot_held_through_grace_witness :
    ((sample_start 30).run sample_to_flip).pc = Pc.flip ∧
    ((sample_start 30).run sample_to_flip).buf.get_buffer = some 7 ∧
    (((sample_start 30).run sample_to_flip).run
      [sample_input false 200 none true, sample_input false 200 none true,
       sample_input true 200 none true]).buf.slot
        ((sample_start 30).run sample_to_flip).buf.cur_idx_
      = ((sample_start 30).run sample_to_flip).buf.get_buffer :=
  ⟨by decide, by decide,
   ((retired_snapshot_held_through_grace ((sample_start 30).run sample_to_flip)
      ⟨true, sample_conf 30, some 7, sample_fs 100, true, none, sample_to_flip, by decide, rfl⟩
      (sample_input false 200 none true) (sample_input false 200 none true)
      (sample_input true 200 none true) (sample_input true 200 none true)
      (by decide)).2.2.2.2.2.2.2.1 (by decide)).2.2.1⟩

/-! ## Counting over a run -/

theorem Tally_exec {Buffer : Type} (m : Machine Buffer) (i : Input Buffer)
    (hI : Inv m) (h : Tally m) : Tally (m.exec i) := by
  obtain ⟨hc, _, hp⟩ := hI
  obtain ⟨t1, t2, t3, t4, t5, t6⟩ := h
  unfold Machine.exec
  cases hpc : m.pc <;>
    simp only [hpc, pending_store, pending_report_ok, pending_report_fail, pending_load]
      at hp t1 t2 t3 t4 ⊢
  case loop_head =>
    split <;> exact ⟨t1, t2, t3, t4, t5, t6⟩
  case poll_sleep =>
    refine ⟨?_, ?_, ?_, ?_, ?_, ?_⟩ <;>
      simp [set_slot_cur_idx, List.countP_append, List.countP_cons,
        Event.is_idx_store, Event.is_load_ok,
        Event.is_load_null, Event.is_done, Event.is_poll, pending_store, pending_report_ok,
        pending_report_fail, pending_load] <;> first | omega | exact t6
  case poll =>
    split <;>
    · refine ⟨?_, ?_, ?_, ?_, ?_, ?_⟩ <;>
        simp [set_slot_cur_idx, List.countP_append, List.countP_cons,
          Event.is_idx_store, Event.is_load_ok,
          Event.is_load_null, Event.is_done, Event.is_poll, pending_store,
          pending_report_ok, pending_report_fail, pending_load] <;>
        first | omega | exact t6
  case clear_unused =>
    refine ⟨?_, ?_, ?_, ?_, ?_, ?_⟩ <;>
      simp [set_slot_cur_idx, List.countP_append, List.countP_cons,
        Event.is_idx_store, Event.is_load_ok,
        Event.is_load_null, Event.is_done, Event.is_poll, pending_store, pending_report_ok,
        pending_report_fail, pending_load] <;> first | omega | exact t6
  case load =>
    cases i.load <;>
    · refine ⟨?_, ?_, ?_, ?_, ?_, ?_⟩ <;>
        simp [set_slot_cur_idx, List.countP_append, List.countP_cons,
          Event.is_idx_store, Event.is_load_ok,
          Event.is_load_null, Event.is_done, Event.is_poll, pending_store,
          pending_report_ok, pending_report_fail, pending_load] <;>
        first | omega | exact t6
  case report_fail =>
    refine ⟨?_, ?_, ?_, ?_, ?_, ?_⟩ <;>
      simp [set_slot_cur_idx, List.countP_append, List.countP_cons,
        Event.is_idx_store, Event.is_load_ok,
        Event.is_load_null, Event.is_done, Event.is_poll, pending_store, pending_report_ok,
        pending_report_fail, pending_load] <;> first | omega | exact t6
  case install =>
    refine ⟨?_, ?_, ?_, ?_, ?_, ?_⟩ <;>
      simp [set_slot_cur_idx, List.countP_append, List.countP_cons,
        Event.is_idx_store, Event.is_load_ok,
        Event.is_load_null, Event.is_done, Event.is_poll, pending_store, pending_report_ok,
        pending_report_fail, pending_load] <;> first | omega | exact t6
  case flip =>
    refine ⟨?_, ?_, ?_, ?_, ?_, ?_⟩ <;>
      simp [set_slot_cur_idx, List.countP_append, List.countP_cons,
        Event.is_idx_store, Event.is_load_ok,
        Event.is_load_null, Event.is_done, Event.is_poll, pending_store, pending_report_ok,
        pending_report_fail, pending_load] <;>
      first
      | omega
      | (intro old new hmem
         rcases hmem with hmem | ⟨rfl, rfl⟩
         · exact t6 old new hmem
         · exact hp.1)
  case report_ok =>
    by_cases hg : m.buf.old_buf_life_time_ > 0 <;>
    · refine ⟨?_, ?_, ?_, ?_, ?_, ?_⟩ <;>
        simp [hg, set_slot_cur_idx, List.countP_append, List.countP_cons,
          Event.is_idx_store, Event.is_load_ok,
          Event.is_load_null, Event.is_done, Event.is_poll, pending_store,
          pending_report_ok, pending_report_fail, pending_load] <;>
        first | omega | exact t6
  case grace_sleep =>
    refine ⟨?_, ?_, ?_, ?_, ?_, ?_⟩ <;>
      simp [set_slot_cur_idx, List.countP_append, List.countP_cons,
        Event.is_idx_store, Event.is_load_ok,
        Event.is_load_null, Event.is_done, Event.is_poll, pending_store, pending_report_ok,
        pending_report_fail, pending_load] <;> first | omega | exact t6
  case clear_retired =>
    refine ⟨?_, ?_, ?_, ?_, ?_, ?_⟩ <;>
      simp [set_slot_cur_idx, List.countP_append, List.countP_cons,
        Event.is_idx_store, Event.is_load_ok,
        Event.is_load_null, Event.is_done, Event.is_poll, pending_store, pending_report_ok,
        pending_report_fail, pending_load] <;> first | omega | exact t6
  case exited =>
    refine ⟨?_, ?_, ?_, ?_, t5, t6⟩ <;> simp only [hpc] <;> assumption

theorem Tally_start {Buffer : Type} (b : DoubleBuffer Buffer) (dc : Option (List Char))
    (h : b.cur_idx_ = 0) : Tally (Machine.start b dc) := by
  refine ⟨rfl, rfl, rfl, rfl, ?_, ?_⟩
  · simp [Machine.start, h]
  · intro old new hmem
    simp [Machine.start] at hmem

theorem Reachable.tally {Buffer : Type} {m : Machine Buffer} (h : Reachable m) : Tally m := by
  refine Reachable.induction Tally ?_ ?_ h
  · intro loader conf fl fs tk dc hret
    exact Tally_start _ dc (Init_true_state loader conf fl fs tk hret).2.2
  · intro m i hr ht
    have := Tally_exec (m.request_stop i.stop_request) i (Inv_request_stop m _ hr.inv)
      (by rw [request_stop_eq]; exact ht)
    exact this

/-- A marker byte is written by at most every call of `SwtichDone`. -/
theorem countP_marker_le_done {Buffer : Type} (flag : Bool) (l : List (Event Buffer)) :
    l.countP (Event.is_marker flag) ≤ l.countP (Event.is_done flag) := by
  induction l with
  | nil => simp
  | cons e l ih =>
    cases e <;> simp [List.countP_cons, Event.is_marker, Event.is_done] <;> try exact ih
    next f w =>
      by_cases hf : f = flag <;> cases w <;> simp [hf] <;> omega

/-- When the done file opened at every call, every call of `SwtichDone` wrote its
marker byte. -/
theorem countP_marker_eq_done {Buffer : Type} (flag : Bool) (l : List (Event Buffer))
    (h : ∀ f, Event.done f false ∉ l) :
    l.countP (Event.is_marker flag) = l.countP (Event.is_done flag) := by
  induction l with
  | nil => simp
  | cons e l ih =>
    have ih2 := ih (fun f hf => h f (List.mem_cons_of_mem _ hf))
    cases e <;> simp [List.countP_cons, Event.is_marker, Event.is_done] <;> try exact ih2
    next f w =>
      cases w
      · exact absurd (List.mem_cons_self _ _) (h f)
      · simp [ih2]

/-- A poll that returns false: the iteration ends, and nothing but the history (and a
stop request that lands meanwhile) changes. -/
theorem step_poll_false {Buffer : Type} (m : Machine Buffer) (i : Input Buffer)
    (hpc : m.pc = Pc.poll)
    (hp : (m.buf.switch_monitor_.ShouldSwitchMonitor i.fs).1 = false) :
    m.step i = { m with buf := { m.buf with
                                  stop_monitor_ := m.buf.stop_monitor_ || i.stop_request },
                        pc := Pc.loop_head, log := m.log ++ [Event.poll false] } := by
  have h2 := ShouldSwitchMonitor_false_unchanged _ _ hp
  simp [Machine.step, Machine.exec, hpc, hp, h2]

theorem replay_done_append {Buffer : Type} (c : Option (List Char))
    (es fs : List (Event Buffer)) :
    replay_done c (es ++ fs) = replay_done (replay_done c es) fs := by
  induction es generalizing c with
  | nil => rfl
  | cons e es ih => cases e <;> simp [replay_done, ih]

/-- The report of a successful load: one call `SwtichDone(true)`, which leaves `'1'` in
the done file when it opens and the file as it was when it does not. -/
theorem step_report_ok {Buffer : Type} (m : Machine Buffer) (i : Input Buffer)
    (hpc : m.pc = Pc.report_ok) :
    (m.step i).log = m.log ++ [Event.done true i.done_open] ∧
    (m.step i).done_content = (if i.done_open then some ['1'] else m.done_content) ∧
    (m.step i).buf.cur_idx_ = m.buf.cur_idx_ := by
  simp [Machine.step, Machine.exec, hpc, SwitchMonitor.SwtichDone]

/-- The report of a failed load: one call `SwtichDone(false)`, which leaves `'0'` in the
done file when it opens and the file as it was when it does not; the iteration ends. -/
theorem step_report_fail {Buffer : Type} (m : Machine Buffer) (i : Input Buffer)
    (hpc : m.pc = Pc.report_fail) :
    (m.step i).log = m.log ++ [Event.done false i.done_open] ∧
    (m.step i).done_content = (if i.done_open then some ['0'] else m.done_content) ∧
    (m.step i).buf.cur_idx_ = m.buf.cur_idx_ ∧
    (m.step i).pc = Pc.loop_head := by
  simp [Machine.step, Machine.exec, hpc, SwitchMonitor.SwtichDone]

/-- Every statement other than the two reports leaves the done file alone and records
no call of `SwtichDone`. -/
theorem step_no_report {Buffer : Type} (m : Machine Buffer) (i : Input Buffer)
    (h1 : m.pc ≠ Pc.report_ok) (h2 : m.pc ≠ Pc.report_fail) :
    (m.step i).done_content = m.done_content ∧
    (∀ b, (m.step i).log.countP (Event.is_done b) = m.log.countP (Event.is_done b)) ∧
    (∀ b, (m.step i).log.countP (Event.is_marker b) = m.log.countP (Event.is_marker b)) := by
  cases hpc : m.pc
  case report_ok => exact absurd hpc h1
  case report_fail => exact absurd hpc h2
  case loop_head =>
    by_cases hs : (m.buf.stop_monitor_ || i.stop_request) = true <;>
      simp [Machine.step, Machine.exec, hpc, hs]
  case poll =>
    cases hp : (m.buf.switch_monitor_.ShouldSwitchMonitor i.fs).1 <;>
      simp [Machine.step, Machine.exec, hpc, hp, List.countP_append, List.countP_cons,
        Event.is_done, Event.is_marker]
  case load =>
    cases hl : i.load <;>
      simp [Machine.step, Machine.exec, hpc, hl, List.countP_append, List.countP_cons,
        Event.is_done, Event.is_marker]
  all_goals
    simp [Machine.step, Machine.exec, hpc, List.countP_append, List.countP_cons,
      Event.is_done, Event.is_marker]

/-- One step extends the history, and the done file after it is the done file before it
with the calls of `SwtichDone` in the extension applied. -/
theorem step_replay_done {Buffer : Type} (m : Machine Buffer) (i : Input Buffer) :
    ∃ evs, (m.step i).log = m.log ++ evs ∧
      (m.step i).done_content = replay_done m.done_content evs := by
  cases hpc : m.pc
  case report_ok =>
    exact ⟨[Event.done true i.done_open], (step_report_ok m i hpc).1, by
      simp [Machine.step, Machine.exec, hpc, replay_done]⟩
  case report_fail =>
    exact ⟨[Event.done false i.done_open], (step_report_fail m i hpc).1, by
      simp [Machine.step, Machine.exec, hpc, replay_done]⟩
  case loop_head =>
    refine ⟨[], ?_, ?_⟩ <;>
      by_cases hs : (m.buf.stop_monitor_ || i.stop_request) = true <;>
      simp [Machine.step, Machine.exec, hpc, hs, replay_done]
  case poll_sleep =>
    refine ⟨[Event.sleep m.buf.monitor_interval_], ?_, ?_⟩ <;>
      simp [Machine.step, Machine.exec, hpc, replay_done]
  case poll =>
    refine ⟨[Event.poll (m.buf.switch_monitor_.ShouldSwitchMonitor i.fs).1], ?_, ?_⟩ <;>
      cases hp : (m.buf.switch_monitor_.ShouldSwitchMonitor i.fs).1 <;>
      simp [Machine.step, Machine.exec, hpc, hp, replay_done]
  case clear_unused =>
    refine ⟨[Event.slot_write m.unused_idx m.buf.cur_idx_ none], ?_, ?_⟩ <;>
      simp [Machine.step, Machine.exec, hpc, replay_done]
  case load =>
    refine ⟨[Event.load i.load], ?_, ?_⟩ <;>
      cases hl : i.load <;>
      simp [Machine.step, Machine.exec, hpc, hl, replay_done]
  case install =>
    refine ⟨[Event.slot_write m.unused_idx m.buf.cur_idx_ m.buffer], ?_, ?_⟩ <;>
      simp [Machine.step, Machine.exec, hpc, replay_done]
  case flip =>
    refine ⟨[Event.idx_store m.buf.cur_idx_ m.unused_idx], ?_, ?_⟩ <;>
      simp [Machine.step, Machine.exec, hpc, replay_done]
  case grace_sleep =>
    refine ⟨[Event.sleep m.buf.old_buf_life_time_], ?_, ?_⟩ <;>
      simp [Machine.step, Machine.exec, hpc, replay_done]
  case clear_retired =>
    refine ⟨[Event.slot_write (sub32 1 m.buf.cur_idx_) m.buf.cur_idx_ none], ?_, ?_⟩ <;>
      simp [Machine.step, Machine.exec, hpc, replay_done]
  case exited =>
    refine ⟨[], ?_, ?_⟩ <;> simp [Machine.step, Machine.exec, hpc, replay_done]

/-- Over any run, the done file is the done file at the start with the recorded calls of
`SwtichDone` applied in order. -/
theorem run_replay_done {Buffer : Type} (is : List (Input Buffer)) (m : Machine Buffer) :
    ∃ evs, (m.run is).log = m.log ++ evs ∧
      (m.run is).done_content = replay_done m.done_content evs := by
  induction is generalizing m with
  | nil => exact ⟨[], by simp [Machine.run], rfl⟩
  | cons i is ih =>
    obtain ⟨e1, h1, h2⟩ := step_replay_done m i
    obtain ⟨e2, h3, h4⟩ := ih (m.step i)
    refine ⟨e1 ++ e2, ?_, ?_⟩
    · show ((m.step i).run is).log = _
      rw [h3, h1, List.append_assoc]
    · show ((m.step i).run is).done_content = _
      rw [h4, h2, replay_done_append]

/-- C5, as stated, fails: a run with one true poll followed by a successful load (so the
count is 1) stores `cur_idx_` once but writes the success marker zero times, because the
`ofstream` on the done file did not open. -/
theorem reload_tally_counterexample :
    ((sample_start 30).run sample_reload_unwritable).pc = Pc.loop_head ∧
    ((sample_start 30).run sample_reload_unwritable).log.countP (Event.is_poll true) = 1 ∧
    ((sample_start 30).run sample_reload_unwritable).log.countP Event.is_load_ok = 1 ∧
    ((sample_start 30).run sample_reload_unwritable).log.countP Event.is_idx_store = 1 ∧
    ((sample_start 30).run sample_reload_unwritable).buf.cur_idx_ = 1 ∧
    ((sample_start 30).run sample_reload_unwritable).log.countP (Event.is_marker true) = 0 ∧
    ((sample_start 30).run sample_reload_unwritable).done_content = none := by
  decide

/-- C5, amended. In every state reached after a successful `Init`, with `N` the number
of loads that returned a snapshot: the stores to `cur_idx_` number `N` (less the one
reload in flight), each changed the index, and `cur_idx_` is the parity of their number;
`SwtichDone(true)` was called `N` times and `SwtichDone(false)` once per load that
returned null (less the report in flight).  Between two iterations (at the loop test or
after the loop) the counts are exact and `cur_idx_` is `N mod 2`.  An iteration whose
poll returns false ends there, with no store, no report and no slot write.  The report
of a successful load is one call `SwtichDone(true)` that leaves exactly `'1'` in the
done file when the file opens and the file as it was when it does not; the report of a
failed load does the same with `'0'` and leaves `cur_idx_` alone; no other statement
touches the done file or calls `SwtichDone`; so over any further run the done file is
the earlier one with the recorded calls applied in order, and the markers written never
exceed the calls and equal them when the file opened every time. -/
theorem reload_tally {Buffer : Type} (m : Machine Buffer) (h : Reachable m) :
    m.log.countP Event.is_idx_store + pending_store m.pc = m.log.countP Event.is_load_ok ∧
    (∀ old new, Event.idx_store old new ∈ m.log → new ≠ old) ∧
    m.buf.cur_idx_ = m.log.countP Event.is_idx_store % 2 ∧
    m.log.countP (Event.is_done true) + pending_report_ok m.pc
      = m.log.countP Event.is_load_ok ∧
    m.log.countP (Event.is_done false) + pending_report_fail m.pc
      = m.log.countP Event.is_load_null ∧
    m.log.countP (Event.is_marker true) ≤ m.log.countP (Event.is_done true) ∧
    m.log.countP (Event.is_marker false) ≤ m.log.countP (Event.is_done false) ∧
    ((∀ f, Event.done f false ∉ m.log) →
      m.log.countP (Event.is_marker true) = m.log.countP (Event.is_done true) ∧
      m.log.countP (Event.is_marker false) = m.log.countP (Event.is_done false)) ∧
    (m.pc = Pc.loop_head ∨ m.pc = Pc.exited →
      m.log.countP Event.is_idx_store = m.log.countP Event.is_load_ok ∧
      m.buf.cur_idx_ = m.log.countP Event.is_load_ok % 2 ∧
      m.log.countP (Event.is_done true) = m.log.countP Event.is_load_ok ∧
      m.log.countP (Event.is_done false) = m.log.countP Event.is_load_null ∧
      m.log.countP (Event.is_poll true)
        = m.log.countP Event.is_load_ok + m.log.countP Event.is_load_null) ∧
    (∀ i : Input Buffer, m.pc = Pc.poll →
      (m.buf.switch_monitor_.ShouldSwitchMonitor i.fs).1 = false →
      m.step i = { m with buf := { m.buf with
                                    stop_monitor_ := m.buf.stop_monitor_ || i.stop_request },
                          pc := Pc.loop_head, log := m.log ++ [Event.poll false] }) ∧
    (∀ i : Input Buffer, m.pc = Pc.report_ok →
      (m.step i).log = m.log ++ [Event.done true i.done_open] ∧
      (m.step i).done_content = (if i.done_open then some ['1'] else m.done_content) ∧
      (m.step i).buf.cur_idx_ = m.buf.cur_idx_) ∧
    (∀ i : Input Buffer, m.pc = Pc.report_fail →
      (m.step i).log = m.log ++ [Event.done false i.done_open] ∧
      (m.step i).done_content = (if i.done_open then some ['0'] else m.done_content) ∧
      (m.step i).buf.cur_idx_ = m.buf.cur_idx_ ∧
      (m.step i).pc = Pc.loop_head) ∧
    (∀ i : Input Buffer, m.pc ≠ Pc.report_ok → m.pc ≠ Pc.report_fail →
      (m.step i).done_content = m.done_content ∧
      (∀ b, (m.step i).log.countP (Event.is_done b) = m.log.countP (Event.is_done b)) ∧
      (∀ b, (m.step i).log.countP (Event.is_marker b)
        = m.log.countP (Event.is_marker b))) ∧
    (∀ is : List (Input Buffer), ∃ evs, (m.run is).log = m.log ++ evs ∧
      (m.run is).done_content = replay_done m.done_content evs) := by
  obtain ⟨t1, t2, t3, t4, t5, t6⟩ := h.tally
  refine ⟨t1, ?_, t5, t2, t3, countP_marker_le_done _ _, countP_marker_le_done _ _, ?_, ?_,
    fun i hpc hp => step_poll_false m i hpc hp, fun i hpc => step_report_ok m i hpc,
    fun i hpc => step_report_fail m i hpc, fun i h1 h2 => step_no_report m i h1 h2,
    fun is => run_replay_done is m⟩
  · intro old new hmem
    have := t6 old new hmem
    omega
  · intro hopen
    exact ⟨countP_marker_eq_done _ _ hopen, countP_marker_eq_done _ _ hopen⟩
  · intro hpc
    rcases hpc with hpc | hpc <;>
      simp only [hpc, pending_store, pending_report_ok, pending_report_fail, pending_load]
        at t1 t2 t3 t4 <;>
      refine ⟨by omega, by omega, by omega, by omega, by omega⟩

/-- One whole reload of the sample loop: one successful load, one store to `cur_idx_`. -/
theorem reload_tally_witness :
    ((sample_start 30).run sample_reload).pc = Pc.loop_head ∧
    ((sample_start 30).run sample_reload).done_content = some ['1'] ∧
    ((sample_start 30).run sample_reload).log.countP Event.is_load_ok = 1 ∧
    ((sample_start 30).run sample_reload).log.countP Event.is_idx_store
      = ((sample_start 30).run sample_reload).log.countP Event.is_load_ok :=
  ⟨by decide, by decide, by decide,
   ((reload_tally ((sample_start 30).run sample_reload)
      ⟨true, sample_conf 30, some 7, sample_fs 100, true, none, sample_reload, by decide, rfl⟩
      ).2.2.2.2.2.2.2.2.1 (Or.inl (by decide))).1⟩

/-! ## Shutdown -/

theorem Stopping_exec {Buffer : Type} (m : Machine Buffer) (i : Input Buffer) (n p l s : Nat)
    (h : Stopping m n p l s) : Stopping (m.exec i) (n - 1) p l s := by
  obtain ⟨h1, h2, h3, h4, h5⟩ := h
  unfold Machine.exec
  cases hpc : m.pc <;>
    simp only [hpc, steps_to_exit, polls_left, loads_left, stores_left] at h2 h3 h4 h5 ⊢
  case loop_head =>
    rw [if_pos h1]
    exact ⟨h1, by simp [steps_to_exit], by simpa [polls_left] using h3,
      by simpa [loads_left] using h4, by simpa [stores_left] using h5⟩
  case poll =>
    split <;>
    · refine ⟨h1, ?_, ?_, ?_, ?_⟩ <;>
        simp [List.countP_append, List.countP_cons, Event.is_any_poll, Event.is_any_load,
          Event.is_idx_store, steps_to_exit, polls_left, loads_left, stores_left] <;> omega
  case load =>
    cases i.load <;>
    · refine ⟨h1, ?_, ?_, ?_, ?_⟩ <;>
        simp [List.countP_append, List.countP_cons, Event.is_any_poll, Event.is_any_load,
          Event.is_idx_store, steps_to_exit, polls_left, loads_left, stores_left] <;> omega
  case report_ok =>
    by_cases hg : m.buf.old_buf_life_time_ > 0 <;>
    · refine ⟨h1, ?_, ?_, ?_, ?_⟩ <;>
        simp [hg, List.countP_append, List.countP_cons, Event.is_any_poll,
          Event.is_any_load, Event.is_idx_store, steps_to_exit, polls_left, loads_left,
          stores_left] <;> omega
  case exited =>
    exact ⟨h1, by simp [hpc, steps_to_exit], by simpa [hpc, polls_left] using h3,
      by simpa [hpc, loads_left] using h4, by simpa [hpc, stores_left] using h5⟩
  all_goals
    refine ⟨by simpa [set_slot_eq] using h1, ?_, ?_, ?_, ?_⟩ <;>
      simp [List.countP_append, List.countP_cons, Event.is_any_poll, Event.is_any_load,
        Event.is_idx_store, steps_to_exit, polls_left, loads_left, stores_left] <;> omega

theorem Stopping_step {Buffer : Type} (m : Machine Buffer) (i : Input Buffer) (n p l s : Nat)
    (h : Stopping m n p l s) : Stopping (m.step i) (n - 1) p l s := by
  apply Stopping_exec
  obtain ⟨h1, h2, h3, h4, h5⟩ := h
  exact ⟨by simp [h1], by simpa using h2, by simpa using h3, by simpa using h4,
    by simpa using h5⟩

theorem Stopping_run {Buffer : Type} (is : List (Input Buffer)) (m : Machine Buffer)
    (n p l s : Nat) (h : Stopping m n p l s) : Stopping (m.run is) (n - is.length) p l s := by
  induction is generalizing m n with
  | nil => simpa [Machine.run] using h
  | cons i is ih =>
    have := ih (m.step i) (n - 1) (Stopping_step m i n p l s h)
    rw [List.length_cons, Nat.sub_add_eq, Nat.sub_right_comm]
    simpa [Machine.run, Nat.sub_right_comm] using this

theorem steps_to_exit_eq_zero (pc : Pc) (h : steps_to_exit pc = 0) : pc = Pc.exited := by
  cases pc <;> simp [steps_to_exit] at h ⊢

/-- C9, as stated, fails: the stop request lands during the poll sleep, yet after that
sleep the loop polls, loads, writes both slots, stores `cur_idx_`, reports and sleeps
the grace period; it leaves the loop only at its next test. -/
theorem shutdown_in_poll_sleep_counterexample :
    ((sample_start 30).run [sample_input false 200 (some 8) true]).pc = Pc.poll_sleep ∧
    ((sample_start 30).run sample_stop_in_sleep).buf.stop_monitor_ = true ∧
    ((sample_start 30).run sample_stop_in_sleep).log = [Event.sleep 3] ∧
    ((sample_start 30).run sample_stop_in_sleep).buf.cur_idx_ = 0 ∧
    (((sample_start 30).run sample_stop_in_sleep).run sample_after_sleep).log
      = [Event.sleep 3, Event.poll true, Event.slot_write 1 0 none, Event.load (some 8),
         Event.slot_write 1 0 (some 8), Event.idx_store 0 1, Event.done true true,
         Event.sleep 30, Event.slot_write 0 1 none] ∧
    (((sample_start 30).run sample_stop_in_sleep).run sample_after_sleep).buf.cur_idx_ = 1 ∧
    (((sample_start 30).run sample_stop_in_sleep).run sample_after_sleep).pc
      = Pc.loop_head ∧
    ((((sample_start 30).run sample_stop_in_sleep).run sample_after_sleep).step
      (sample_input false 200 (some 8) true)).pc = Pc.exited := by
  decide

/-- C9, amended. Once `stop_monitor_` is set (before or during the statement the loop is
at), the loop finishes the iteration it is in and leaves at the next loop test: after at
most `steps_to_exit` statements it has exited, having started no new iteration.  When
the request lands during the poll sleep the loop has no test after that sleep: it goes
on to the poll, makes exactly that one more poll, at most one more load and at most one
more store to `cur_idx_`, and exits within ten statements. -/
theorem shutdown_finishes_iteration {Buffer : Type} (m : Machine Buffer) (i0 : Input Buffer)
    (is : List (Input Buffer))
    (hreq : (m.buf.stop_monitor_ || i0.stop_request) = true)
    (hlen : steps_to_exit m.pc ≤ is.length + 1) :
    (m.run (i0 :: is)).pc = Pc.exited ∧
    (m.run (i0 :: is)).log.countP Event.is_any_poll
      = m.log.countP Event.is_any_poll + polls_left m.pc ∧
    (m.run (i0 :: is)).log.countP Event.is_any_load
      ≤ m.log.countP Event.is_any_load + loads_left m.pc ∧
    (m.run (i0 :: is)).log.countP Event.is_idx_store
      ≤ m.log.countP Event.is_idx_store + stores_left m.pc ∧
    (m.pc = Pc.poll_sleep →
      (m.step i0).pc = Pc.poll ∧
      (m.step i0).log = m.log ++ [Event.sleep m.buf.monitor_interval_] ∧
      (m.run (i0 :: is)).log.countP Event.is_any_poll
        = m.log.countP Event.is_any_poll + 1) := by
  have h0 : Stopping (m.request_stop i0.stop_request) (steps_to_exit m.pc)
      (m.log.countP Event.is_any_poll + polls_left m.pc)
      (m.log.countP Event.is_any_load + loads_left m.pc)
      (m.log.countP Event.is_idx_store + stores_left m.pc) :=
    ⟨by simpa using hreq, by simp, by simp, by simp, by simp⟩
  have h1 := Stopping_exec _ i0 _ _ _ _ h0
  have h2 := Stopping_run is _ _ _ _ _ h1
  obtain ⟨_, k1, k2, k3, k4⟩ := h2
  have hrun : m.run (i0 :: is) = ((m.request_stop i0.stop_request).exec i0).run is := rfl
  rw [← hrun] at k1 k2 k3 k4
  have hex : (m.run (i0 :: is)).pc = Pc.exited :=
    steps_to_exit_eq_zero _ (by omega)
  have e1 : polls_left Pc.exited = 0 := rfl
  have e2 : loads_left Pc.exited = 0 := rfl
  have e3 : stores_left Pc.exited = 0 := rfl
  rw [hex] at k2 k3 k4
  rw [e1] at k2
  rw [e2] at k3
  rw [e3] at k4
  refine ⟨hex, by omega, by omega, by omega, ?_⟩
  intro hpc
  have e4 : polls_left Pc.poll_sleep = 1 := rfl
  rw [hpc, e4] at k2
  refine ⟨?_, ?_, by omega⟩ <;> simp [Machine.step, Machine.exec, hpc]

/-- The sample loop with a stop request during its first poll sleep: it makes one poll and
has exited ten statements later. -/
theorem shutdown_finishes_iteration_witness :
    (((sample_start 30).run [sample_input false 200 (some 8) true]).run
      (sample_input true 200 (some 8) true ::
        List.replicate 9 (sample_input false 200 (some 8) true))).pc = Pc.exited ∧
    (((sample_start 30).run [sample_input false 200 (some 8) true]).run
      (sample_input true 200 (some 8) true ::
        List.replicate 9 (sample_input false 200 (some 8) true))).log.countP
          Event.is_any_poll = 1 :=
  ⟨(shutdown_finishes_iteration ((sample_start 30).run [sample_input false 200 (some 8) true])
      (sample_input true 200 (some 8) true)
      (List.replicate 9 (sample_input false 200 (some 8) true))
      (by decide) (by decide)).1,
   by decide⟩

end framework.double_buffer
